import Mathlib

/-!
Verification development for the TradeVerse Broker Trade Import &
Normalization Pipeline.

The Python source under `app/services/instrument_catalog.py`,
`app/mappers/instrument_mapper.py`, `app/services/pnl_engine.py`,
`app/services/pnl_calculator_advanced.py`, `app/importers/base_importer.py`,
`app/importers/csv_importer.py` and `app/importers/mt5_parser.py` is embedded
shallowly below:

* Python floats are modelled as rationals (`ℚ`); `round(x, n)` is modelled by
  `pyRound` (round-half-to-even, as Python does on non-tie-free values; the
  concrete values appearing in theorems below are tie-free so binary floating
  point noise does not affect any statement).
* Python dicts keyed by strings are modelled as association lists with
  JSON-object semantics (distinct keys), looked up with `List.find?`.
* Standard-library boundaries that the repository merely calls —
  `difflib.SequenceMatcher.ratio` (fuzzy scoring), `re.match` with a
  profile-supplied pattern (broker symbol patterns), and
  `datetime.strptime` — are taken as parameters (`fz`, `rm`, `strp`) of the
  embedded functions; every theorem either holds for all instantiations or
  instantiates them concretely at a point where they are not consulted.
* Code that raises is modelled with `Except String`; an importer's outer
  `try/except` that converts an exception into a failed `ImportResult` is
  modelled by matching on the `Except` value.
-/

namespace TradeVerse

/-! ### Python-rounding on rationals

`round(x, n)` in Python rounds half to even (banker's rounding). -/

/-- Round a rational to the nearest integer, ties to even, as Python's
built-in `round` does. -/
def pyRoundInt (q : ℚ) : ℤ :=
  let f : ℤ := ⌊q⌋
  let frac : ℚ := q - f
  if frac < 1/2 then f
  else if 1/2 < frac then f + 1
  else if f % 2 = 0 then f else f + 1

/-- Python `round(x, n)` for a nonnegative digit count `n`. -/
def pyRound (q : ℚ) (n : ℕ) : ℚ :=
  (pyRoundInt (q * 10 ^ n) : ℚ) / 10 ^ n

/-! ### String helpers mirroring Python string operations -/

/-- Python `needle in hay` (contiguous substring test). -/
def strContains (hay needle : String) : Bool :=
  decide (needle.data <:+: hay.data)

/-- Python `s.upper()` for the ASCII symbol data handled here
(`Char.toUpper` maps exactly `a-z`). -/
def pyUpper (s : String) : String := ⟨s.data.map Char.toUpper⟩

/-- Python `s.lower()` for ASCII data. -/
def pyLower (s : String) : String := ⟨s.data.map Char.toLower⟩

/-- The ASCII whitespace stripped by Python `str.strip()`. -/
def isPySpace (c : Char) : Bool :=
  c = ' ' ∨ c = '\t' ∨ c = '\n' ∨ c = '\r' ∨ c = '\x0b' ∨ c = '\x0c'

/-- Python `s.strip()`. -/
def pyStrip (s : String) : String :=
  ⟨((s.data.dropWhile isPySpace).reverse.dropWhile isPySpace).reverse⟩

/-- Python `s.startswith(pre)`. -/
def pyStartsWith (s pre : String) : Bool := pre.data.isPrefixOf s.data

/-- Python `s.endswith(suf)`. -/
def pyEndsWith (s suf : String) : Bool := suf.data.isSuffixOf s.data

/-- Python string `<` (lexicographic comparison by code point). -/
def charsLT : List Char → List Char → Bool
  | [], [] => false
  | [], _ :: _ => true
  | _ :: _, [] => false
  | a :: as, b :: bs => if a < b then true else if b < a then false else charsLT as bs

/-- Python string `≤`, as used by tuple comparison inside `list.sort`. -/
def strLE (a b : String) : Bool := !(charsLT b.data a.data)

/-- Python string truthiness combined with `or`: `opt or default` where the
option holds a string (`None` and `''` are falsy). -/
def pyOrStr (o : Option String) (d : String) : String :=
  match o with
  | some s => if s = "" then d else s
  | none => d

/-- Lookup in an association list modelling a JSON-object-backed Python dict
(keys distinct), as used for broker profiles and CSV rows. -/
def dictFind (l : List (String × α)) (k : String) : Option α :=
  (l.find? (fun p => p.1 == k)).map (·.2)

/-- Remove the separator characters `_ / - .` and ASCII whitespace, as
`re.sub(r'[_/\-\.\s]', '', s)` does. -/
def stripSeps (s : String) : String :=
  ⟨s.data.filter (fun c =>
    !(c = '_' ∨ c = '/' ∨ c = '-' ∨ c = '.' ∨ c = ' ' ∨ c = '\t' ∨ c = '\n' ∨ c = '\r'))⟩

/-- One `re.sub(suffix_pattern + '$', '', s)` application for a literal
suffix. -/
def stripSuffix1 (suf : String) (s : String) : String :=
  if pyEndsWith s suf then s.dropRight suf.length else s

/-- One application of the alternation
`re.sub(r'(\.M|\.PRO|\.ECN|\.RAW|MICRO|MINI)$', '', s)`.  The alternatives
are pairwise incompatible as anchored suffixes (no alternative is a suffix of
another), so at most one can match and trying them in order is equivalent to
the regex. -/
def stripSuffixAlt (sufs : List String) (s : String) : String :=
  match sufs.find? (fun suf => pyEndsWith s suf) with
  | some suf => s.dropRight suf.length
  | none => s

/-! ### Python float parsing

`float(cleaned)` applied to a string already cleaned to the character class
`[0-9.+-eE]` (CSV importer) or `[0-9.+-]` (MT4/MT5 importer).  Handles an
optional leading sign, `digits[.digits]`, `.digits`, `digits.`, and an
optional exponent part; anything else yields `None` (a `ValueError` in
Python, caught by the importers). -/

/-- Numeric value of a digit list (most significant first). -/
def digitsVal (cs : List Char) : ℕ :=
  cs.foldl (fun a c => a * 10 + (c.toNat - 48)) 0

/-- Parse an optional sign followed by the rest. -/
def splitSign (cs : List Char) : ℚ × List Char :=
  match cs with
  | '-' :: r => (-1, r)
  | '+' :: r => (1, r)
  | _ => (1, cs)

/-- Parse a mantissa `digits[.digits]` / `.digits` / `digits.` (at least one
digit overall). -/
def parseMantissa (cs : List Char) : Option ℚ :=
  match cs.splitOn '.' with
  | [ip] =>
      if ip ≠ [] ∧ ip.all Char.isDigit then some (digitsVal ip) else none
  | [ip, fp] =>
      if (ip ≠ [] ∨ fp ≠ []) ∧ ip.all Char.isDigit ∧ fp.all Char.isDigit then
        some ((digitsVal ip : ℚ) + (digitsVal fp : ℚ) / 10 ^ fp.length)
      else none
  | _ => none

/-- Parse a (signed) exponent: nonempty digits after an optional sign. -/
def parseExponent (cs : List Char) : Option ℤ :=
  let (sgn, rest) := splitSign cs
  if rest ≠ [] ∧ rest.all Char.isDigit then
    some (if sgn = -1 then -(digitsVal rest : ℤ) else (digitsVal rest : ℤ))
  else none

/-- Python `float(s)` on a cleaned numeric string; `none` models
`ValueError`. -/
def pyFloat (s : String) : Option ℚ :=
  let (sgn, rest) := splitSign s.data
  match (rest.splitOn 'e', rest.splitOn 'E') with
  | ([m], [_]) =>
      match m.splitOn 'E' with
      | [m2] => (parseMantissa m2).map (fun v => sgn * v)
      | [m2, e2] => do
          let v ← parseMantissa m2
          let ex ← parseExponent e2
          pure (sgn * v * 10 ^ ex)
      | _ => none
  | ([m, e], _) =>
      if m.contains 'E' ∨ e.contains 'E' then none
      else do
        let v ← parseMantissa m
        let ex ← parseExponent e
        pure (sgn * v * 10 ^ ex)
  | _ => none

/-- Fixed two-decimal formatting, as the f-string `:.2f` produces for the
(tie-free) confidence values appearing in validation messages. -/
def format2f (q : ℚ) : String :=
  let r := pyRoundInt (q * 100)
  let a := r.natAbs
  let frac := a % 100
  (if r < 0 then "-" else "")
    ++ toString (a / 100) ++ "."
    ++ (if frac < 10 then "0" ++ toString frac else toString frac)

/-! ### Instrument Catalog (`app/services/instrument_catalog.py`)

An instrument record as loaded from `instruments.json`; metadata defaults
mirror the `.get(..., default)` calls in `InstrumentCatalog.get_metadata`.
Fields that the Python dict may lack are `Option`-valued; `type` defaults to
`"unknown"` exactly as `instrument.get('type', 'unknown')` does. -/

structure Instrument where
  symbol : String
  display_name : String := ""
  type : String := "unknown"
  pip_or_tick_size : Option ℚ := none
  tick_value : Option ℚ := none
  contract_size : Option ℚ := none
  price_decimals : Option ℤ := none
  aliases : List String := []
  deriving Repr, DecidableEq

/-- Instrument metadata as returned by `InstrumentCatalog.get_metadata`
(and as optionally passed straight to the P&L engine by tests/callers,
whence the `Option` fields). -/
structure Meta where
  symbol : String := ""
  display_name : String := ""
  type : String := "unknown"
  pip_or_tick_size : Option ℚ := none
  tick_value : Option ℚ := none
  contract_size : Option ℚ := none
  price_decimals : Option ℤ := none
  deriving Repr, DecidableEq

namespace InstrumentCatalog

/-- `_symbol_index`: uppercased symbol → instrument.  Later entries of
`self._instruments` overwrite earlier ones in the Python dict, hence the
last matching entry wins. -/
def symbolIndex (insts : List Instrument) (key : String) : Option Instrument :=
  (insts.filter (fun i => pyUpper i.symbol == key)).getLast?

/-- `_alias_index`: uppercased alias → uppercased canonical symbol,
last-written entry winning as in a Python dict. -/
def aliasIndex (insts : List Instrument) (key : String) : Option String :=
  (((insts.map (fun i => i.aliases.map
      (fun a => (pyUpper a, pyUpper i.symbol)))).flatten).filter
    (fun p => p.1 == key)).getLast? |>.map (·.2)

/-- `InstrumentCatalog.normalize_symbol`.  Note the order of operations in
the source: the separator class `[_/\-\.\s]` (which includes the dot) is
removed over the whole string first, and only then is the anchored suffix
alternation `(\.M|\.PRO|\.ECN|\.RAW|MICRO|MINI)$` applied. -/
def normalize_symbol (insts : List Instrument) (symbol : String) : String :=
  if symbol = "" then ""
  else
    let n := stripSeps (pyStrip (pyUpper symbol))
    let n := stripSuffixAlt [".M", ".PRO", ".ECN", ".RAW", "MICRO", "MINI"] n
    if (symbolIndex insts n).isSome then n
    else
      match aliasIndex insts n with
      | some canonical => canonical
      | none => n

/-- `InstrumentCatalog.resolve_symbol`: exact, alias, then normalized
lookup. -/
def resolve_symbol (insts : List Instrument) (symbol : String) : Option Instrument :=
  let upper := pyStrip (pyUpper symbol)
  match symbolIndex insts upper with
  | some i => some i
  | none =>
    match aliasIndex insts upper with
    | some canonical => symbolIndex insts canonical
    | none =>
      let n := normalize_symbol insts symbol
      match symbolIndex insts n with
      | some i => some i
      | none =>
        match aliasIndex insts n with
        | some canonical => symbolIndex insts canonical
        | none => none

/-- `InstrumentCatalog.get_metadata`: resolve, then project with the
defaults of the source (`pip_or_tick_size` 0.0001, `tick_value` 10.0,
`contract_size` 100000, `price_decimals` 5). -/
def get_metadata (insts : List Instrument) (symbol : String) : Option Meta :=
  (resolve_symbol insts symbol).map (fun i =>
    { symbol := i.symbol
      display_name := if i.display_name = "" then i.symbol else i.display_name
      type := i.type
      pip_or_tick_size := some (i.pip_or_tick_size.getD (1/10000))
      tick_value := some (i.tick_value.getD 10)
      contract_size := some (i.contract_size.getD 100000)
      price_decimals := some (i.price_decimals.getD 5) })

/-- The curated `_popular_symbols` list built in `_build_indexes`. -/
def popularSymbols : List String :=
  ["EURUSD", "GBPUSD", "USDJPY", "XAUUSD", "US500", "US100", "US30",
   "BTCUSD", "ETHUSD", "AAPL", "MSFT", "GOOGL", "AMZN", "TSLA",
   "GER40", "UK100", "JPN225", "USOIL", "NATGAS"]

end InstrumentCatalog

/-- The abstracted `difflib.SequenceMatcher(None, a, b).ratio()` used by
`InstrumentCatalog._fuzzy_score`; it is a parameter of the embedding (its
value always lies in `[0, 1]`). -/
abbrev FuzzyFn := String → String → ℚ

/-- One ranked result of `InstrumentCatalog.search` (the instrument dict
copy together with its `_score` and `_match_type` annotations). -/
structure SearchHit where
  inst : Instrument
  score : ℚ
  match_type : String
  deriving Repr, DecidableEq

namespace InstrumentCatalog

/-- The per-candidate scoring chain in the body of the `search` loop
(source lines 198-224), in the source order of its `elif` branches: exact,
starts-with, contains, alias exact, alias starts-with, alias contains,
fuzzy.  Returns `none` when the final `if score > 0` check would drop the
candidate. -/
def candidateScore (fz : FuzzyFn) (qU qN : String) (includeFuzzy : Bool)
    (inst : Instrument) : Option (ℚ × String) :=
  let symbol := pyUpper inst.symbol
  let display := pyUpper inst.display_name
  let aliases := inst.aliases.map pyUpper
  if symbol = qU ∨ symbol = qN then some (1, "exact")
  else if pyStartsWith symbol qU then some (9/10, "startswith")
  else if strContains symbol qU ∨ strContains display qU then some (7/10, "contains")
  else if aliases.any (fun a => a = qU ∨ a = qN) then some (85/100, "alias_exact")
  else if aliases.any (fun a => pyStartsWith a qU) then some (3/4, "alias_startswith")
  else if aliases.any (fun a => strContains a qU) then some (65/100, "alias_contains")
  else if includeFuzzy then
    let f := fz (pyLower qU) (pyLower symbol)
    if 1/2 ≤ f then some (f * (6/10), "fuzzy") else none
  else none

/-- The `search` candidate loop with its `seen` de-duplication set. -/
def searchScan (fz : FuzzyFn) (qU qN : String) (includeFuzzy : Bool) :
    List Instrument → List String → List SearchHit
  | [], _ => []
  | inst :: rest, seen =>
    let symbol := pyUpper inst.symbol
    if symbol ∈ seen then searchScan fz qU qN includeFuzzy rest seen
    else
      match candidateScore fz qU qN includeFuzzy inst with
      | some (sc, mt) =>
          ⟨inst, sc, mt⟩ :: searchScan fz qU qN includeFuzzy rest (symbol :: seen)
      | none => searchScan fz qU qN includeFuzzy rest seen

/-- The comparison key `(-_score, symbol)` of `results.sort` as a boolean
ordering usable by a stable merge sort (Python list.sort is stable; with
this full key the result is uniquely determined anyway). -/
def hitLE (a b : SearchHit) : Bool :=
  if a.score = b.score then strLE a.inst.symbol b.inst.symbol
  else decide (b.score < a.score)

/-- `InstrumentCatalog._get_popular` for the empty-query path. -/
def getPopular (insts : List Instrument) (limit offset : ℕ)
    (instType : Option String) : List SearchHit :=
  ((popularSymbols.filterMap (fun s =>
      (symbolIndex insts s).bind (fun i =>
        if (match instType with | none => true | some t => i.type == t) then
          some (⟨i, 1/2, "popular"⟩ : SearchHit)
        else none))).drop offset).take limit

/-- `InstrumentCatalog.search`. -/
def search (fz : FuzzyFn) (insts : List Instrument) (query : String)
    (limit offset : ℕ) (instType : Option String) (includeFuzzy : Bool) :
    List SearchHit :=
  if query = "" then getPopular insts limit offset instType
  else
    let qU := pyStrip (pyUpper query)
    let qN := normalize_symbol insts query
    let candidates := match instType with
      | none => insts
      | some t => insts.filter (fun i => i.type == t)
    let results := List.insertionSort (fun a b => hitLE a b = true)
      (searchScan fz qU qN includeFuzzy candidates [])
    (results.drop offset).take limit

end InstrumentCatalog

/-! ### Instrument Mapper (`app/mappers/instrument_mapper.py`) -/

/-- One entry of a broker profile `symbol_patterns` list. -/
structure PatternRule where
  pattern : String := ""
  canonical : String := ""
  deriving Repr, DecidableEq

/-- The abstracted `re.match(pattern, symbol, re.IGNORECASE)`: given the
pattern string and the input, return `some groups` on a match (the list of
captured groups, `none` entries for non-participating groups) and `none`
otherwise; a pattern raising `re.error` is also modelled by `none` since the
source skips such patterns. -/
abbrev ReMatchFn := String → String → Option (List (Option String))

/-- A broker profile as loaded from `brokers.json` (the fields consulted by
`InstrumentMapper`). -/
structure BrokerProfile where
  id : String
  symbol_mappings : List (String × String) := []
  symbol_patterns : List PatternRule := []
  deriving Repr, DecidableEq

/-- Output of `InstrumentMapper.map_symbol` (the `MappingResult`
dataclass; the unused `adjustments` field is omitted). -/
structure MappingResult where
  canonical_symbol : String
  original_symbol : String
  broker_id : String
  confidence : ℚ
  match_type : String
  instrument_metadata : Option Meta := none
  warnings : Option (List String) := none
  deriving Repr, DecidableEq

namespace InstrumentMapper

/-- `InstrumentMapper._normalize_symbol`: separators (including the dot)
are removed first, then each anchored suffix pattern of the `suffixes` list
is applied in order. -/
def normalize_symbol_m (symbol : String) : String :=
  let n := stripSeps (pyStrip (pyUpper symbol))
  [".M", ".PRO", ".ECN", ".RAW", ".STP",
   "MICRO", "MINI", ".C", ".I", ".S"].foldl
    (fun s suf => stripSuffix1 suf s) n

/-- `InstrumentMapper._try_direct_mapping`. -/
def try_direct_mapping (insts : List Instrument) (broker : BrokerProfile)
    (broker_symbol broker_id : String) : Option MappingResult :=
  match dictFind broker.symbol_mappings broker_symbol with
  | some canonical =>
      some { canonical_symbol := canonical
             original_symbol := broker_symbol
             broker_id := broker_id
             confidence := 1
             match_type := "direct"
             instrument_metadata := InstrumentCatalog.get_metadata insts canonical }
  | none =>
      let upper := pyUpper broker_symbol
      match broker.symbol_mappings.find? (fun p => pyUpper p.1 == upper) with
      | some p =>
          some { canonical_symbol := p.2
                 original_symbol := broker_symbol
                 broker_id := broker_id
                 confidence := 19/20
                 match_type := "direct_case_insensitive"
                 instrument_metadata := InstrumentCatalog.get_metadata insts p.2 }
      | none => none

/-- Substitution of captured groups into the canonical template:
`canonical.replace("$i", group.upper())` for each 1-based group that is
truthy (present and nonempty). -/
def substGroups (template : String) (groups : List (Option String)) : String :=
  groups.enum.foldl (fun acc p =>
    match p.2 with
    | some g => if g = "" then acc else acc.replace ("$" ++ toString (p.1 + 1)) (pyUpper g)
    | none => acc) template

/-- `InstrumentMapper._try_pattern_mapping`: first pattern (in profile
order) whose regex matches and whose templated result resolves in the
catalog wins. -/
def try_pattern_mapping (rm : ReMatchFn) (insts : List Instrument)
    (broker : BrokerProfile) (broker_symbol broker_id : String) :
    Option MappingResult :=
  broker.symbol_patterns.findSome? (fun rule =>
    match rm rule.pattern broker_symbol with
    | some groups =>
        let canonical := substGroups rule.canonical groups
        match InstrumentCatalog.resolve_symbol insts canonical with
        | some inst =>
            some { canonical_symbol := inst.symbol
                   original_symbol := broker_symbol
                   broker_id := broker_id
                   confidence := 9/10
                   match_type := "pattern"
                   instrument_metadata :=
                     InstrumentCatalog.get_metadata insts inst.symbol }
        | none => none
    | none => none)

/-- Warning text of the fuzzy branch (quoting punctuation elided; only the
count and presence of warnings matter to any statement below). -/
def fuzzyWarning (broker_symbol matched : String) (score : ℚ) : String :=
  "Fuzzy matched " ++ broker_symbol ++ " to " ++ matched
    ++ " (score: " ++ format2f score ++ ")"

/-- Warning text of the unmapped branch. -/
def unmappedWarning (broker_symbol : String) : String :=
  "Could not map symbol " ++ broker_symbol ++ " - using as-is"

/-- `InstrumentMapper._fuzzy_map`. -/
def fuzzy_map (fz : FuzzyFn) (insts : List Instrument)
    (broker_symbol broker_id : String) (warnings : List String) :
    MappingResult :=
  let normalized := normalize_symbol_m broker_symbol
  let search_results := InstrumentCatalog.search fz insts normalized 5 0 none true
  let unmapped : MappingResult :=
    { canonical_symbol := normalized
      original_symbol := broker_symbol
      broker_id := broker_id
      confidence := 3/10
      match_type := "unmapped"
      warnings := some (warnings ++ [unmappedWarning broker_symbol]) }
  match search_results.head? with
  | some best =>
      if 6/10 ≤ best.score then
        { canonical_symbol := best.inst.symbol
          original_symbol := broker_symbol
          broker_id := broker_id
          confidence := best.score * (8/10)
          match_type := "fuzzy"
          instrument_metadata := InstrumentCatalog.get_metadata insts best.inst.symbol
          warnings := some (warnings ++ [fuzzyWarning broker_symbol best.inst.symbol best.score]) }
      else unmapped
  | none => unmapped

/-- `InstrumentMapper._fallback_map` (unknown broker id). -/
def fallback_map (fz : FuzzyFn) (insts : List Instrument)
    (broker_symbol broker_id : String) (warnings : List String) :
    MappingResult :=
  let warnings := warnings ++ ["Unknown broker " ++ broker_id ++ " - using generic mapping"]
  let normalized := normalize_symbol_m broker_symbol
  match InstrumentCatalog.resolve_symbol insts normalized with
  | some inst =>
      { canonical_symbol := inst.symbol
        original_symbol := broker_symbol
        broker_id := broker_id
        confidence := 7/10
        match_type := "generic_normalized"
        instrument_metadata := InstrumentCatalog.get_metadata insts inst.symbol
        warnings := some warnings }
  | none => fuzzy_map fz insts broker_symbol broker_id warnings

/-- `InstrumentMapper.map_symbol`: direct, pattern, normalized, fuzzy, in
this order, `_fallback_map` when the broker id is unknown. -/
def map_symbol (fz : FuzzyFn) (rm : ReMatchFn) (brokers : List BrokerProfile)
    (insts : List Instrument) (broker_symbol broker_id : String) :
    MappingResult :=
  match brokers.find? (fun b => b.id == broker_id) with
  | none => fallback_map fz insts broker_symbol broker_id []
  | some broker =>
    match try_direct_mapping insts broker broker_symbol broker_id with
    | some r => r
    | none =>
      match try_pattern_mapping rm insts broker broker_symbol broker_id with
      | some r => r
      | none =>
        let normalized := normalize_symbol_m broker_symbol
        match InstrumentCatalog.resolve_symbol insts normalized with
        | some inst =>
            { canonical_symbol := inst.symbol
              original_symbol := broker_symbol
              broker_id := broker_id
              confidence := 17/20
              match_type := "normalized"
              instrument_metadata := InstrumentCatalog.get_metadata insts inst.symbol
              warnings := none }
        | none => fuzzy_map fz insts broker_symbol broker_id []

end InstrumentMapper

/-! ### P&L Engine (`app/services/pnl_engine.py`)

Divisions guarded in the source by Python truthiness (`x / d if d else 0`)
are embedded with the same explicit guard; the one unguarded division
(`price_diff / pip_size` in `_calculate_forex`, which raises
`ZeroDivisionError` in Python if `pip_size == 0`) is embedded with rational
division, and every statement below stays away from `pip_size = 0`. -/

/-- Result of a P&L calculation (the `PnLResult` dataclass; the free-form
`details` dict, unused by any claim, is omitted). -/
structure PnLResult where
  pnl : ℚ
  pnl_currency : String
  pip_move : Option ℚ
  points : Option ℚ
  tick_move : Option ℚ
  deriving Repr, DecidableEq

/-- The `lot_size_rule` overrides of an optional broker profile argument
(`broker['lot_size_rule'].get(asset_class, contract_size)`). -/
structure LotRules where
  forex : Option ℚ := none
  indices : Option ℚ := none
  commodities : Option ℚ := none
  deriving Repr, DecidableEq

namespace PnLEngine

/-- `PnLEngine._calculate_forex`.  Source lines 156-157 compute a value
that line 159 immediately overwrites with `pnl = price_diff * units`; the
embedding keeps the effective assignment. -/
def calculate_forex (entry_price exit_price size : ℚ) (size_type direction : String)
    (meta : Meta) (broker : Option LotRules) (account_currency : String) : PnLResult :=
  let pip_size := meta.pip_or_tick_size.getD (1/10000)
  let contract_size := meta.contract_size.getD 100000
  let contract_size := match broker with
    | some b => b.forex.getD contract_size
    | none => contract_size
  let units :=
    if size_type = "lots" then size * contract_size
    else if size_type = "units" then size
    else size * contract_size
  let price_diff := exit_price - entry_price
  let price_diff := if direction = "sell" then -price_diff else price_diff
  let pip_move := price_diff / pip_size
  let pnl := price_diff * units
  { pnl := pyRound pnl 2
    pnl_currency := account_currency
    pip_move := some (pyRound pip_move 1)
    points := none
    tick_move := some (pyRound pip_move 1) }

/-- `PnLEngine._calculate_index`. -/
def calculate_index (entry_price exit_price size : ℚ) (size_type direction : String)
    (meta : Meta) (broker : Option LotRules) (account_currency : String) : PnLResult :=
  let tick_size := meta.pip_or_tick_size.getD 1
  let tick_value := meta.tick_value.getD 1
  let contract_size := meta.contract_size.getD 1
  let contract_size := match broker with
    | some b => b.indices.getD contract_size
    | none => contract_size
  let contracts :=
    if size_type = "lots" then size
    else if size_type = "contracts" then size
    else if contract_size ≠ 0 then size / contract_size else size
  let price_diff := exit_price - entry_price
  let price_diff := if direction = "sell" then -price_diff else price_diff
  let points := price_diff
  let ticks := if tick_size ≠ 0 then price_diff / tick_size else 0
  let pnl := points * tick_value * contracts
  { pnl := pyRound pnl 2
    pnl_currency := account_currency
    pip_move := none
    points := some (pyRound points 2)
    tick_move := some (pyRound ticks 1) }

/-- `PnLEngine._calculate_commodity`. -/
def calculate_commodity (entry_price exit_price size : ℚ) (size_type direction : String)
    (meta : Meta) (broker : Option LotRules) (account_currency : String) : PnLResult :=
  let tick_size := meta.pip_or_tick_size.getD (1/100)
  let contract_size := meta.contract_size.getD 100
  let contract_size := match broker with
    | some b => b.commodities.getD contract_size
    | none => contract_size
  let contracts :=
    if size_type = "lots" then size
    else if size_type = "contracts" then size
    else if contract_size ≠ 0 then size / contract_size else size
  let price_diff := exit_price - entry_price
  let price_diff := if direction = "sell" then -price_diff else price_diff
  let tick_move := if tick_size ≠ 0 then price_diff / tick_size else 0
  let pnl := price_diff * contract_size * contracts
  { pnl := pyRound pnl 2
    pnl_currency := account_currency
    pip_move := none
    points := some (pyRound price_diff 4)
    tick_move := some (pyRound tick_move 1) }

/-- `PnLEngine._calculate_crypto`. -/
def calculate_crypto (entry_price exit_price size : ℚ) (size_type direction : String)
    (meta : Meta) (account_currency : String) : PnLResult :=
  let contract_size := meta.contract_size.getD 1
  let tick_size := meta.pip_or_tick_size.getD (1/100)
  let quantity :=
    if size_type = "lots" then size * contract_size
    else if size_type = "contracts" then size * contract_size
    else size
  let price_diff := exit_price - entry_price
  let price_diff := if direction = "sell" then -price_diff else price_diff
  let pnl := quantity * price_diff
  let pct_move := if entry_price ≠ 0 then price_diff / entry_price * 100 else 0
  let tick_move := if tick_size ≠ 0 then price_diff / tick_size else 0
  { pnl := pyRound pnl 2
    pnl_currency := account_currency
    pip_move := none
    points := some (pyRound pct_move 2)
    tick_move := some (pyRound tick_move 1) }

/-- `PnLEngine._calculate_stock`. -/
def calculate_stock (entry_price exit_price size : ℚ) (direction : String)
    (account_currency : String) : PnLResult :=
  let shares := size
  let price_diff := exit_price - entry_price
  let price_diff := if direction = "sell" then -price_diff else price_diff
  let pnl := shares * price_diff
  { pnl := pyRound pnl 2
    pnl_currency := account_currency
    pip_move := none
    points := some (pyRound price_diff 2)
    tick_move := none }

/-- `PnLEngine._calculate_generic`. -/
def calculate_generic (entry_price exit_price size : ℚ) (size_type direction : String)
    (meta : Meta) (account_currency : String) : PnLResult :=
  let contract_size := meta.contract_size.getD 1
  let tick_size := meta.pip_or_tick_size.getD (1/100)
  let quantity :=
    if size_type = "lots" then size * contract_size
    else size
  let price_diff := exit_price - entry_price
  let price_diff := if direction = "sell" then -price_diff else price_diff
  let pnl := quantity * price_diff
  let tick_move := if tick_size ≠ 0 then price_diff / tick_size else 0
  { pnl := pyRound pnl 2
    pnl_currency := account_currency
    pip_move := none
    points := some (pyRound price_diff 4)
    tick_move := some (pyRound tick_move 1) }

/-- `PnLEngine.calculate`: metadata defaulting followed by dispatch on the
instrument-type string.  There is no input validation of any kind in the
source; the function returns a numeric result for every input. -/
def calculate (insts : List Instrument) (instrument_symbol : String)
    (entry_price exit_price size : ℚ) (size_type trade_direction : String)
    (instrument_meta : Option Meta) (broker_profile : Option LotRules)
    (account_currency : String) : PnLResult :=
  let meta := match instrument_meta with
    | some m => m
    | none =>
      match InstrumentCatalog.get_metadata insts instrument_symbol with
      | some m => m
      | none =>
        { type := "unknown"
          pip_or_tick_size := some (1/10000)
          tick_value := some 10
          contract_size := some 100000
          price_decimals := some 5 }
  if meta.type = "forex" then
    calculate_forex entry_price exit_price size size_type trade_direction meta broker_profile account_currency
  else if meta.type = "index" then
    calculate_index entry_price exit_price size size_type trade_direction meta broker_profile account_currency
  else if meta.type = "commodity" then
    calculate_commodity entry_price exit_price size size_type trade_direction meta broker_profile account_currency
  else if meta.type = "crypto" then
    calculate_crypto entry_price exit_price size size_type trade_direction meta account_currency
  else if meta.type = "stock" ∨ meta.type = "etf" then
    calculate_stock entry_price exit_price size trade_direction account_currency
  else
    calculate_generic entry_price exit_price size size_type trade_direction meta account_currency

end PnLEngine

/-- The plain dict produced by `PnLResult.to_dict()` and returned by the
module-level convenience wrapper `calculate_pnl` (its docstring: "Always
returns a dict").  It is a Python `dict`, not a `PnLResult` object. -/
structure PnLDict where
  pnl : ℚ
  pnl_currency : String
  pip_move : Option ℚ
  points : Option ℚ
  tick_move : Option ℚ
  deriving Repr, DecidableEq

/-- `PnLResult.to_dict`. -/
def PnLResult.to_dict (r : PnLResult) : PnLDict :=
  ⟨r.pnl, r.pnl_currency, r.pip_move, r.points, r.tick_move⟩

/-- Python attribute access `result.pnl` evaluated on a plain `dict` value:
a `dict` exposes its entries only by subscription (`result["pnl"]`), so the
attribute access raises `AttributeError` unconditionally.  This is exactly
what `BaseImporter._calculate_pnl` (line 216, `trade.profit_loss =
result.pnl`) does with the dict returned by the `calculate_pnl` wrapper. -/
def pyDictAttrPnl (_ : PnLDict) : Except String ℚ :=
  .error "AttributeError: dict object has no attribute pnl"

namespace PnLEngine

/-- The module-level wrapper `calculate_pnl` on the keyword-argument path
used by `BaseImporter._calculate_pnl` (`'instrument_symbol' in kwargs`):
it calls `PnLEngine.calculate` and returns `result.to_dict()`. -/
def calculate_pnl_kw (insts : List Instrument) (instrument_symbol : String)
    (entry_price exit_price size : ℚ) (size_type trade_direction : String)
    (instrument_meta : Option Meta) : PnLDict :=
  (calculate insts instrument_symbol entry_price exit_price size size_type
    trade_direction instrument_meta none "USD").to_dict

end PnLEngine

/-! ### Advanced P&L calculator (`app/services/pnl_calculator_advanced.py`) -/

/-- The `InstrumentType` enum. -/
inductive InstrumentType where
  | FOREX | INDEX | CRYPTO | STOCK | COMMODITY
  deriving Repr, DecidableEq

/-- The `PnLCalculator` instrument configuration (constructor defaults of
the source). -/
structure PnLCalculator where
  instrument_type : InstrumentType
  pip_size : ℚ := 1/10000
  tick_value : ℚ := 1
  contract_size : ℚ := 1
  deriving Repr, DecidableEq

namespace PnLCalculator

/-- `PnLCalculator.calculate_pnl`: non-positive `entry_price`,
`exit_price` or `quantity` short-circuit to `(0.0, 0.0)` before any
branch runs; otherwise dispatch on the instrument type.  The divisions
`pnl / quantity` and `pnl / (contract_size * quantity)` carry the source's
`if quantity > 0 else 0` guards; `price_diff / pip_size` is unguarded in
the source (raising in Python when `pip_size == 0`) and every statement
below assumes `pip_size > 0`. -/
def calculate_pnl (c : PnLCalculator) (entry_price exit_price quantity : ℚ)
    (trade_type : String) : ℚ × ℚ :=
  if entry_price ≤ 0 ∨ exit_price ≤ 0 ∨ quantity ≤ 0 then (0, 0)
  else
    let price_diff :=
      if pyUpper trade_type = "BUY" then exit_price - entry_price
      else entry_price - exit_price
    match c.instrument_type with
    | .FOREX =>
        let pips := price_diff / c.pip_size
        let pip_value := c.pip_size * c.contract_size * 10
        let pnl := pips * pip_value * (quantity / 1)
        (pyRound pnl 2, pyRound pips 2)
    | .INDEX =>
        let points := price_diff
        let pnl := points * c.tick_value * quantity
        (pyRound pnl 2, pyRound points 2)
    | .CRYPTO =>
        let pnl := price_diff * quantity
        (pyRound pnl 2, pyRound (if 0 < quantity then pnl / quantity else 0) 2)
    | .STOCK =>
        let pnl := price_diff * quantity
        (pyRound pnl 2, pyRound (if 0 < quantity then pnl / quantity else 0) 2)
    | .COMMODITY =>
        let pnl := price_diff * c.contract_size * quantity
        (pyRound pnl 2,
         pyRound (if 0 < quantity then pnl / (c.contract_size * quantity) else 0) 2)

/-- The per-type `price_diff` computed inside
`PnLCalculator.reverse_calculate_exit`; `none` models the
`ZeroDivisionError` caught by the surrounding `try/except`, which makes the
method return `0.0`. -/
def revPriceDiff (c : PnLCalculator) (quantity target_pnl : ℚ) : Option ℚ :=
  match c.instrument_type with
  | .FOREX =>
      let pip_value := c.pip_size * c.contract_size * 10
      if pip_value * quantity = 0 then none
      else some (target_pnl / (pip_value * quantity) * c.pip_size)
  | .INDEX =>
      if c.tick_value * quantity = 0 then none
      else some (target_pnl / (c.tick_value * quantity))
  | .CRYPTO =>
      if quantity = 0 then none else some (target_pnl / quantity)
  | .STOCK =>
      if quantity = 0 then none else some (target_pnl / quantity)
  | .COMMODITY =>
      if c.contract_size * quantity = 0 then none
      else some (target_pnl / (c.contract_size * quantity))

/-- The unrounded exit price `entry ± price_diff` of
`reverse_calculate_exit`. -/
def exitOf (entry_price price_diff : ℚ) (trade_type : String) : ℚ :=
  if pyUpper trade_type = "BUY" then entry_price + price_diff
  else entry_price - price_diff

/-- `PnLCalculator.reverse_calculate_exit`: guard, per-type inverse
formula, then `round(exit_price, 4)`. -/
def reverse_calculate_exit (c : PnLCalculator) (entry_price quantity target_pnl : ℚ)
    (trade_type : String) : ℚ :=
  if entry_price ≤ 0 ∨ quantity ≤ 0 then 0
  else
    match revPriceDiff c quantity target_pnl with
    | none => 0
    | some price_diff => pyRound (exitOf entry_price price_diff trade_type) 4

end PnLCalculator

/-! ### Importers (`app/importers/base_importer.py`, `csv_importer.py`,
`mt5_parser.py`)

The CSV embedding starts from the header list and the per-row dicts
produced by `csv.DictReader` (a standard-library boundary); the MT4/MT5
embedding starts from the header/rows tables produced by the
`MT5StatementParser` HTML tokenizer.  `datetime.strptime` is the parameter
`strp : String → String → Option ℤ` (format, then value). -/

/-- The `ImportStatus` enum. -/
inductive ImportStatus where
  | PENDING | PARSING | MAPPING | VALIDATING | IMPORTING | COMPLETED | FAILED | CANCELLED
  deriving Repr, DecidableEq

/-- The `TradeRecord` dataclass (the free-form `raw_data` dict is
omitted); `datetime` values are opaque timestamps modelled by `ℤ`. -/
structure TradeRecord where
  broker_ticket : String
  broker_symbol : String
  canonical_symbol : Option String := none
  instrument_type : Option String := none
  trade_type : String := ""
  direction : String := ""
  lot_size : ℚ := 0
  units : Option ℚ := none
  entry_price : ℚ := 0
  exit_price : Option ℚ := none
  stop_loss : Option ℚ := none
  take_profit : Option ℚ := none
  entry_date : Option ℤ := none
  exit_date : Option ℤ := none
  profit_loss : Option ℚ := none
  commission : ℚ := 0
  swap : ℚ := 0
  status : String := "closed"
  mapping_confidence : ℚ := 0
  mapping_warnings : List String := []
  validation_errors : List String := []
  deriving Repr, DecidableEq

/-- The `ImportResult` dataclass (`source_file` omitted). -/
structure ImportResult where
  success : Bool
  status : ImportStatus
  message : String
  trades : List TradeRecord := []
  total_parsed : ℕ := 0
  total_mapped : ℕ := 0
  total_imported : ℕ := 0
  total_skipped : ℕ := 0
  total_failed : ℕ := 0
  errors : List String := []
  warnings : List String := []
  date_range_start : Option ℤ := none
  date_range_end : Option ℤ := none
  broker_id : Option String := none
  source_type : String := "unknown"
  deriving Repr, DecidableEq

/-- Last-written-wins association-list lookup, modelling a Python dict
built by comprehension over keys that may collide
(`{f.lower().strip(): f for f in fieldnames}`). -/
def dictFindLast (l : List (String × α)) (k : String) : Option α :=
  (l.filter (fun p => p.1 == k)).getLast? |>.map (·.2)

namespace BaseImporter

/-- `BaseImporter._map_symbols`, one trade at a time.  Each iteration calls
the module-level wrapper `map_broker_symbol(trade.broker_symbol,
self.broker_id)`; if the trade's broker symbol happens to equal a known
broker id, the wrapper's argument-order heuristic returns a tuple instead
of a `MappingResult`, and the following `mapping.canonical_symbol`
attribute access raises `AttributeError` (modelled by `.error`). -/
def map_symbols_step (fz : FuzzyFn) (rm : ReMatchFn)
    (brokers : List BrokerProfile) (insts : List Instrument)
    (broker_id : String) : List TradeRecord → Except String (List TradeRecord)
  | [] => .ok []
  | t :: ts =>
    if brokers.any (fun b => b.id == t.broker_symbol) then
      .error "AttributeError: tuple object has no attribute canonical_symbol"
    else
      let mapping := InstrumentMapper.map_symbol fz rm brokers insts t.broker_symbol broker_id
      let t := { t with
        canonical_symbol := some mapping.canonical_symbol
        mapping_confidence := mapping.confidence
        mapping_warnings := mapping.warnings.getD []
        instrument_type := match mapping.instrument_metadata with
          | some m => some m.type
          | none => t.instrument_type }
      (t :: ·) <$> map_symbols_step fz rm brokers insts broker_id ts

/-- `BaseImporter._calculate_pnl`, one trade at a time.  For a trade with
`profit_loss is None` and an `exit_price`, the wrapper `calculate_pnl`
returns a dict (`result.to_dict()`), and line 216 reads the attribute
`result.pnl` from that dict — an unconditional `AttributeError`
(`pyDictAttrPnl`), so the loop raises on the first such trade. -/
def calculate_pnl_step (insts : List Instrument) :
    List TradeRecord → Except String (List TradeRecord)
  | [] => .ok []
  | t :: ts =>
    if t.profit_loss.isNone ∧ t.exit_price.isSome then
      let sym := pyOrStr t.canonical_symbol t.broker_symbol
      let meta := InstrumentCatalog.get_metadata insts sym
      let result := PnLEngine.calculate_pnl_kw insts sym t.entry_price
        (t.exit_price.getD 0) t.lot_size "lots" t.direction meta
      match pyDictAttrPnl result with
      | .error e => .error e
      | .ok v => (fun r => { t with profit_loss := some v } :: r) <$> calculate_pnl_step insts ts
    else
      (t :: ·) <$> calculate_pnl_step insts ts

/-- `BaseImporter._get_date_range`. -/
def get_date_range (trades : List TradeRecord) : Option ℤ × Option ℤ :=
  match trades.filterMap (·.entry_date) with
  | [] => (none, none)
  | d :: ds => (some (ds.foldl min d), some (ds.foldl max d))

end BaseImporter

/-- The shared body of `CSVImporter.validate` and `MT5Parser.validate`
(the two methods are textually identical): rebuild `validation_errors`
from the four §3 validity checks plus the low-mapping-confidence check. -/
def validateOne (t : TradeRecord) : TradeRecord :=
  let errors :=
    (if t.broker_symbol = "" then ["Missing symbol"] else [])
    ++ (if t.entry_price ≤ 0 then ["Invalid entry price"] else [])
    ++ (if t.lot_size ≤ 0 then ["Invalid lot size"] else [])
    ++ (if t.entry_date = none then ["Missing entry date"] else [])
    ++ (if t.mapping_confidence < 1/2 then
          ["Low mapping confidence: " ++ format2f t.mapping_confidence] else [])
  { t with validation_errors := errors }

namespace CSVImporter

/-- The `'generic'` entry of `CSVImporter.BROKER_FORMATS` column synonyms
(in dict insertion order). -/
def generic_columns : List (String × List String) :=
  [("ticket", ["ticket", "order", "id", "trade_id", "tradeid"]),
   ("symbol", ["symbol", "instrument", "pair", "market"]),
   ("type", ["type", "side", "direction", "action"]),
   ("lots", ["lots", "size", "volume", "quantity", "units", "amount"]),
   ("open_price", ["open_price", "entry_price", "price", "open", "entry"]),
   ("close_price", ["close_price", "exit_price", "close", "exit"]),
   ("open_time", ["open_time", "entry_time", "open_date", "date", "time"]),
   ("close_time", ["close_time", "exit_time", "close_date"]),
   ("profit", ["profit", "pnl", "p/l", "pl", "realized_pnl", "gross_profit"])]

/-- `CSVImporter._build_column_map`: logical field → CSV column name, the
first synonym present winning, via the lowercased-header dict. -/
def build_column_map (cols : List (String × List String))
    (fieldnames : List String) : List (String × String) :=
  let fieldnames_lower := fieldnames.map (fun f => (pyStrip (pyLower f), f))
  cols.filterMap (fun fc =>
    (fc.2.findSome? (fun name => dictFindLast fieldnames_lower (pyLower name))).map
      (fun c => (fc.1, c)))

/-- The `get_value` closure of `CSVImporter._parse_row`. -/
def get_value (column_map row : List (String × String)) (field : String) :
    Option String :=
  match dictFind column_map field with
  | some col =>
    if col = "" then none
    else
      match dictFind row col with
      | some v => if v = "" then none else some (pyStrip v)
      | none => none
  | none => none

/-- `CSVImporter._parse_direction`. -/
def parse_direction (trade_type : String) : String :=
  if trade_type = "" then "buy"
  else
    let t := pyLower trade_type
    if ["sell", "short", "s", "ask"].any (fun x => strContains t x) then "sell"
    else "buy"

/-- The cleaning step of `CSVImporter._parse_float`:
`re.sub(r'[^\d.\-+eE]', '', value.replace(',', ''))`. -/
def clean_float (s : String) : String :=
  ⟨(s.data.filter (fun c => c ≠ ',')).filter
    (fun c => c.isDigit ∨ c = '.' ∨ c = '-' ∨ c = '+' ∨ c = 'e' ∨ c = 'E')⟩

/-- `CSVImporter._parse_float`. -/
def parse_float (value : Option String) : Option ℚ :=
  match value with
  | none => none
  | some s => if s = "" then none else pyFloat (clean_float s)

/-- `CSVImporter._parse_datetime`: the broker format's `date_format`
first, then the fixed ordered list, first `strptime` success winning. -/
def parse_datetime (strp : String → String → Option ℤ) (fmt_first : String)
    (value : Option String) : Option ℤ :=
  match value with
  | none => none
  | some v =>
    if v = "" then none
    else
      ([fmt_first,
        "%Y-%m-%d %H:%M:%S", "%Y-%m-%dT%H:%M:%S", "%Y-%m-%dT%H:%M:%SZ",
        "%Y-%m-%dT%H:%M:%S.%fZ", "%Y.%m.%d %H:%M:%S", "%Y.%m.%d %H:%M",
        "%d/%m/%Y %H:%M:%S", "%m/%d/%Y %H:%M:%S", "%d-%m-%Y %H:%M:%S",
        "%Y%m%d;%H%M%S", "%Y%m%d %H:%M:%S"]).findSome?
        (fun fmt => strp fmt (pyStrip v))

/-- `CSVImporter._parse_row`. -/
def parse_row (strp : String → String → Option ℤ) (fmt_first : String)
    (column_map row : List (String × String)) (row_num : ℕ) :
    Option TradeRecord :=
  let gv := get_value column_map row
  match gv "symbol" with
  | none => none
  | some symbol =>
    if symbol = "" then none
    else
      let ticket := pyOrStr (gv "ticket") ("CSV-" ++ toString row_num)
      let trade_type := pyOrStr (gv "type") ""
      let direction := parse_direction trade_type
      let lots := (parse_float (gv "lots")).getD 0
      let lotdir :=
        if lots < 0 then
          (-lots, if direction = "buy" then "sell"
                  else if direction = "sell" then "buy" else direction)
        else (lots, direction)
      let entry_price := (parse_float (gv "open_price")).getD 0
      let exit_price := parse_float (gv "close_price")
      let entry_date := parse_datetime strp fmt_first (gv "open_time")
      let exit_date := parse_datetime strp fmt_first (gv "close_time")
      let profit := parse_float (gv "profit")
      let status :=
        if ((match exit_price with | some x => decide (x ≠ 0) | none => false) || profit.isSome : Bool)
        then "closed" else "open"
      some { broker_ticket := ticket
             broker_symbol := symbol
             trade_type := trade_type
             direction := lotdir.2
             lot_size := lotdir.1
             entry_price := entry_price
             exit_price := exit_price
             entry_date := entry_date
             exit_date := exit_date
             profit_loss := profit
             status := status }

/-- `CSVImporter.parse` from the `DictReader` stage on: parse rows (the
row counter starts at 2 for the first data row), map symbols, complete
P&L, compute the date range, assemble the `ImportResult`; an exception in
the mapping or P&L stage is caught by the outer `try/except`, producing a
failed result with no trades. -/
def parse_rows (strp : String → String → Option ℤ) (fz : FuzzyFn)
    (rm : ReMatchFn) (brokers : List BrokerProfile) (insts : List Instrument)
    (broker_id : String) (dry_run : Bool) (cols : List (String × List String))
    (fmt_first : String) (fieldnames : List String)
    (rows : List (List (String × String))) : ImportResult :=
  let column_map := build_column_map cols fieldnames
  let trades := rows.enum.filterMap
    (fun p => parse_row strp fmt_first column_map p.2 (p.1 + 2))
  match BaseImporter.map_symbols_step fz rm brokers insts broker_id trades with
  | .error e =>
      { success := false, status := .FAILED
        message := "Failed to parse CSV: " ++ e, errors := [e]
        broker_id := some broker_id, source_type := "csv" }
  | .ok trades =>
    match BaseImporter.calculate_pnl_step insts trades with
    | .error e =>
        { success := false, status := .FAILED
          message := "Failed to parse CSV: " ++ e, errors := [e]
          broker_id := some broker_id, source_type := "csv" }
    | .ok trades =>
      let dr := BaseImporter.get_date_range trades
      { success := true
        status := if dry_run then .VALIDATING else .COMPLETED
        message := "Parsed " ++ toString trades.length ++ " trades from CSV"
        trades := trades
        total_parsed := trades.length
        total_mapped := (trades.filter (fun t => 7/10 ≤ t.mapping_confidence)).length
        errors := []
        date_range_start := dr.1
        date_range_end := dr.2
        broker_id := some broker_id
        source_type := "csv" }

/-- `CSVImporter.validate`. -/
def validate (trades : List TradeRecord) : List TradeRecord :=
  trades.map validateOne

end CSVImporter

/-- A header/rows table extracted from an MT4/MT5 HTML statement by
`MT5StatementParser`. -/
structure HtmlTable where
  headers : List String
  rows : List (List String)
  deriving Repr, DecidableEq

namespace MT5Parser

/-- `MT5Parser.COLUMN_MAPPINGS` (in dict insertion order). -/
def column_mappings : List (String × List String) :=
  [("ticket", ["Ticket", "Order", "Position", "#", "Deal", "Trade"]),
   ("symbol", ["Symbol", "Instrument"]),
   ("type", ["Type", "Action"]),
   ("lots", ["Volume", "Lots", "Size"]),
   ("open_time", ["Open Time", "Time", "Open Date"]),
   ("open_price", ["Open Price", "Price", "Entry"]),
   ("sl", ["S/L", "SL", "Stop Loss"]),
   ("tp", ["T/P", "TP", "Take Profit"]),
   ("close_time", ["Close Time", "Close Date"]),
   ("close_price", ["Close Price", "Exit"]),
   ("commission", ["Commission", "Comm"]),
   ("swap", ["Swap", "Rollover"]),
   ("profit", ["Profit", "P/L", "Gross"])]

/-- First pass of `MT5Parser._find_trades_table`: a symbol-like column and
a profit-like or type-like column (substring tests on lowercased
headers). -/
def heuristicTable (t : HtmlTable) : Bool :=
  let hl := t.headers.map pyLower
  let has_symbol := hl.any (fun h => strContains h "symbol" ∨ strContains h "instrument")
  let has_profit := hl.any (fun h => strContains h "profit" ∨ strContains h "p/l")
  let has_type := hl.any (fun h => strContains h "type" ∨ strContains h "action")
  has_symbol ∧ (has_profit ∨ has_type)

/-- `MT5Parser._find_trades_table`: heuristic pass, then the fallback pass
requiring `len(rows) > 2` (strictly more than two data rows) and a first
row of at least 5 cells. -/
def find_trades_table (tables : List HtmlTable) : Option HtmlTable :=
  match tables.find? heuristicTable with
  | some t => some t
  | none =>
    tables.find? (fun t =>
      decide (2 < t.rows.length) && decide (5 ≤ (t.rows.headD []).length))

/-- `MT5Parser._build_column_map`: logical field → column index, scanning
synonyms in order and headers left to right, substring matching. -/
def build_column_map (headers : List String) : List (String × ℕ) :=
  let headers_lower := headers.map pyLower
  column_mappings.filterMap (fun fc =>
    (fc.2.findSome? (fun name =>
      (headers_lower.enum.find? (fun p => strContains p.2 (pyLower name))).map (·.1))).map
      (fun i => (fc.1, i)))

/-- The `get_value` closure of `MT5Parser._parse_row`. -/
def get_value (column_map : List (String × ℕ)) (row : List String)
    (field : String) : Option String :=
  match dictFind column_map field with
  | some idx =>
    match row.get? idx with
    | some v => if v = "" then none else some (pyStrip v)
    | none => none
  | none => none

/-- `MT5Parser._parse_direction`. -/
def parse_direction (trade_type : String) : String :=
  if trade_type = "" then "buy"
  else
    let t := pyLower trade_type
    if strContains t "sell" ∨ strContains t "short" then "sell" else "buy"

/-- The cleaning step of `MT5Parser._parse_float`:
`re.sub(r'[^\d.\-+]', '', value.replace(',', '').replace(' ', ''))`. -/
def clean_float (s : String) : String :=
  ⟨((s.data.filter (fun c => c ≠ ',')).filter (fun c => c ≠ ' ')).filter
    (fun c => c.isDigit ∨ c = '.' ∨ c = '-' ∨ c = '+')⟩

/-- `MT5Parser._parse_float`. -/
def parse_float (value : Option String) : Option ℚ :=
  match value with
  | none => none
  | some s => if s = "" then none else pyFloat (clean_float s)

/-- `MT5Parser._parse_datetime`. -/
def parse_datetime (strp : String → String → Option ℤ) (value : Option String) :
    Option ℤ :=
  match value with
  | none => none
  | some v =>
    if v = "" then none
    else
      (["%Y.%m.%d %H:%M:%S", "%Y.%m.%d %H:%M", "%Y-%m-%d %H:%M:%S",
        "%Y-%m-%d %H:%M", "%d.%m.%Y %H:%M:%S", "%d.%m.%Y %H:%M",
        "%Y/%m/%d %H:%M:%S", "%Y/%m/%d %H:%M"]).findSome?
        (fun fmt => strp fmt (pyStrip v))

/-- `MT5Parser._parse_row`: rows without a symbol and rows whose type is
balance/deposit/withdrawal/credit/rebate (case-insensitively) yield no
record. -/
def parse_row (strp : String → String → Option ℤ)
    (column_map : List (String × ℕ)) (row : List String) (row_num : ℕ) :
    Option TradeRecord :=
  let gv := get_value column_map row
  match gv "symbol" with
  | none => none
  | some symbol =>
    if symbol = "" then none
    else
      let trade_type := pyOrStr (gv "type") ""
      if pyLower trade_type ∈ ["balance", "deposit", "withdrawal", "credit", "rebate"]
      then none
      else
        let ticket := pyOrStr (gv "ticket") ("MT-" ++ toString row_num)
        let direction := parse_direction trade_type
        let lots := (parse_float (gv "lots")).getD 0
        let entry_price := (parse_float (gv "open_price")).getD 0
        let exit_price := parse_float (gv "close_price")
        let sl := parse_float (gv "sl")
        let tp := parse_float (gv "tp")
        let entry_date := parse_datetime strp (gv "open_time")
        let exit_date := parse_datetime strp (gv "close_time")
        let commission := (parse_float (gv "commission")).getD 0
        let swap := (parse_float (gv "swap")).getD 0
        let profit := parse_float (gv "profit")
        let status :=
          if ((match exit_price with | some x => decide (x ≠ 0) | none => false) || profit.isSome : Bool)
          then "closed" else "open"
        some { broker_ticket := ticket
               broker_symbol := symbol
               trade_type := trade_type
               direction := direction
               lot_size := lots
               entry_price := entry_price
               exit_price := exit_price
               stop_loss := match sl with
                 | some x => if 0 < x then some x else none
                 | none => none
               take_profit := match tp with
                 | some x => if 0 < x then some x else none
                 | none => none
               entry_date := entry_date
               exit_date := exit_date
               commission := commission
               swap := swap
               profit_loss := profit
               status := status }

/-- `MT5Parser.parse` from the extracted-tables stage on: select the
trades table (failing the whole import when none qualifies), parse rows
(the row counter starts at 1), map symbols, complete P&L, assemble; an
exception in the mapping or P&L stage is caught by the outer `try/except`,
producing a failed result with no trades. -/
def parse_tables (strp : String → String → Option ℤ) (fz : FuzzyFn)
    (rm : ReMatchFn) (brokers : List BrokerProfile) (insts : List Instrument)
    (broker_id : String) (dry_run : Bool) (tables : List HtmlTable) :
    ImportResult :=
  match find_trades_table tables with
  | none =>
      { success := false, status := .FAILED
        message := "Could not find trades table in statement"
        errors := ["No valid trades table found. Ensure this is a detailed statement export."] }
  | some tbl =>
    let column_map := build_column_map tbl.headers
    let trades := tbl.rows.enum.filterMap
      (fun p => parse_row strp column_map p.2 (p.1 + 1))
    match BaseImporter.map_symbols_step fz rm brokers insts broker_id trades with
    | .error e =>
        { success := false, status := .FAILED
          message := "Failed to parse MT4/MT5 statement: " ++ e, errors := [e]
          broker_id := some broker_id, source_type := "mt5" }
    | .ok trades =>
      match BaseImporter.calculate_pnl_step insts trades with
      | .error e =>
          { success := false, status := .FAILED
            message := "Failed to parse MT4/MT5 statement: " ++ e, errors := [e]
            broker_id := some broker_id, source_type := "mt5" }
      | .ok trades =>
        let dr := BaseImporter.get_date_range trades
        { success := true
          status := if dry_run then .VALIDATING else .COMPLETED
          message := "Parsed " ++ toString trades.length ++ " trades from MT4/MT5 statement"
          trades := trades
          total_parsed := trades.length
          total_mapped := (trades.filter (fun t => 7/10 ≤ t.mapping_confidence)).length
          errors := []
          date_range_start := dr.1
          date_range_end := dr.2
          broker_id := some broker_id
          source_type := "mt5" }

/-- `MT5Parser.validate` (textually identical to `CSVImporter.validate`). -/
def validate (trades : List TradeRecord) : List TradeRecord :=
  trades.map validateOne

end MT5Parser

/-! ### Concrete fixtures used by the theorems below -/

/-- Stand-in instantiation for `SequenceMatcher.ratio` at call sites where
the fuzzy score is either not consulted or only its being below threshold
matters (the constant `0` is a legal ratio value). -/
def fzZero : FuzzyFn := fun _ _ => 0

/-- Constant fuzzy ratio 1 (a legal `SequenceMatcher.ratio` value),
used where a fuzzy hit above threshold is wanted. -/
def fzOne : FuzzyFn := fun _ _ => 1

/-- Stand-in instantiation for `re.match` at call sites with no
symbol-pattern rules. -/
def rmNone : ReMatchFn := fun _ _ => none

/-- Stand-in instantiation for `datetime.strptime` at call sites whose
inputs carry no date column. -/
def strpNone : String → String → Option ℤ := fun _ _ => none

/-- The EURUSD catalog entry (symbol, aliases and metadata as produced by
the repository's instrument generator for forex majors). -/
def instEURUSD : Instrument :=
  { symbol := "EURUSD"
    display_name := "Euro vs US Dollar"
    type := "forex"
    pip_or_tick_size := some (1/10000)
    tick_value := some 10
    contract_size := some 100000
    price_decimals := some 5
    aliases := ["EUR_USD", "EUR/USD", "eurusd"] }

/-- One-instrument catalog for the suffix-normalization scenario. -/
def catC3 : List Instrument := [instEURUSD]

/-- A `mt4_generic` broker profile with no direct mappings and no
patterns, so that resolution must go through the normalization tier. -/
def profMT4 : BrokerProfile := { id := "mt4_generic" }

/-- A catalog candidate whose symbol contains the query `GOLD` and whose
aliases contain `GOLD` exactly. -/
def instXGOLDX : Instrument :=
  { symbol := "XGOLDX", display_name := "X Gold X", type := "stock", aliases := ["GOLD"] }

/-- A second candidate carrying the same alias so that the alias index
resolves `GOLD` to `ZZZ` (last writer wins), keeping `XGOLDX` out of the
exact tier. -/
def instZZZ : Instrument :=
  { symbol := "ZZZ", display_name := "Zed", type := "stock", aliases := ["GOLD"] }

/-- Two-instrument catalog for the search-ranking scenario. -/
def catC4 : List Instrument := [instXGOLDX, instZZZ]

/-- A broker profile with no mappings and no patterns. -/
def profGeneric : BrokerProfile := { id := "generic" }

/-- Forex calculator with the standard 0.0001 pip and 100000 contract
size. -/
def cFx : PnLCalculator :=
  { instrument_type := .FOREX, pip_size := 1/10000, tick_value := 1, contract_size := 100000 }

/-- Header row of the Scenario A CSV
(`symbol,type,lots,open_price,close_price`). -/
def scenarioAHeaders : List String :=
  ["symbol", "type", "lots", "open_price", "close_price"]

/-- The Scenario A CSV data row as a `DictReader` row. -/
def scenarioARow : List (String × String) :=
  [("symbol", "EURUSD"), ("type", "buy"), ("lots", "0.10"),
   ("open_price", "1.1000"), ("close_price", "1.1050")]

/-- The EURUSD forex metadata of Scenario A. -/
def metaEURUSD : Meta :=
  { symbol := "EURUSD", display_name := "Euro vs US Dollar", type := "forex"
    pip_or_tick_size := some (1/10000), tick_value := some 10
    contract_size := some 100000, price_decimals := some 5 }

/-- A record satisfying all four §3 validity conditions but carrying the
default mapping confidence 0.0. -/
def recC8 : TradeRecord :=
  { broker_ticket := "1", broker_symbol := "EURUSD", entry_price := 11/10
    lot_size := 1/10, entry_date := some 0, mapping_confidence := 0 }

/-- A record satisfying the four §3 conditions and mapped with confidence
0.95. -/
def recC8ok : TradeRecord :=
  { broker_ticket := "2", broker_symbol := "GBPUSD", entry_price := 5/4
    lot_size := 1/5, entry_date := some 1, mapping_confidence := 19/20 }

/-- A headerless 5-column table with exactly two data rows (the claim's
fallback premise: at least 2 data rows and at least 5 columns). -/
def tblC9 : HtmlTable :=
  { headers := ["a", "b", "c", "d", "e"]
    rows := [["1", "2", "3", "4", "5"], ["1", "2", "3", "4", "5"]] }

/-- An MT4/MT5 trades table with one real trade row and one balance row. -/
def tblC10 : HtmlTable :=
  { headers := ["Ticket", "Symbol", "Type", "Volume", "Price", "Profit"]
    rows := [["1", "EURUSD", "buy", "0.10", "1.1000", "50.00"],
             ["2", "XX", "balance", "", "", "10.00"]] }

/-- The trade record produced from the first row of `tblC10` by
`MT5Parser.parse_tables` with an empty catalog and no broker profiles. -/
def tradeC10 : TradeRecord :=
  { broker_ticket := "1"
    broker_symbol := "EURUSD"
    canonical_symbol := some "EURUSD"
    trade_type := "buy"
    direction := "buy"
    lot_size := 1/10
    entry_price := 11/10
    profit_loss := some 50
    status := "closed"
    mapping_confidence := 3/10
    mapping_warnings := ["Unknown broker mt4_generic - using generic mapping",
                         "Could not map symbol EURUSD - using as-is"] }

/-- The filtered MT4/MT5 row types. -/
def nonTradeTypes : List String :=
  ["balance", "deposit", "withdrawal", "credit", "rebate"]

/-- The confidence attached to each resolution tier of `map_symbol`,
keyed by the result's match type (the fuzzy tier by its attainable
range). -/
def ConfByTier (r : MappingResult) : Prop :=
  (r.match_type = "direct" → r.confidence = 1)
  ∧ (r.match_type = "direct_case_insensitive" → r.confidence = 19/20)
  ∧ (r.match_type = "pattern" → r.confidence = 9/10)
  ∧ (r.match_type = "normalized" → r.confidence = 17/20)
  ∧ (r.match_type = "fuzzy" → 12/25 ≤ r.confidence ∧ r.confidence ≤ 4/5)
  ∧ (r.match_type = "unmapped" → r.confidence = 3/10)

/-! ### Theorems -/

theorem abs_pyRoundInt_sub_le (q : ℚ) : |(pyRoundInt q : ℚ) - q| ≤ 1/2 := by
  unfold pyRoundInt
  have hfl : (⌊q⌋ : ℚ) ≤ q := Int.floor_le q
  have hfu : q < (⌊q⌋ : ℚ) + 1 := Int.lt_floor_add_one q
  by_cases h1 : q - (⌊q⌋ : ℚ) < 1/2
  · simp only [h1, if_true]
    rw [abs_sub_comm, abs_of_nonneg (by linarith)]
    linarith
  · by_cases h2 : (1:ℚ)/2 < q - (⌊q⌋ : ℚ)
    · simp only [h1, if_false, h2, if_true]
      push_cast
      rw [abs_of_nonneg (by linarith)]
      linarith
    · have he : q - (⌊q⌋ : ℚ) = 1/2 := le_antisymm (not_lt.mp h2) (not_lt.mp h1)
      by_cases h3 : ⌊q⌋ % 2 = 0
      · simp only [h1, if_false, h2, if_false, h3, if_true]
        rw [abs_sub_comm, abs_of_nonneg (by linarith)]
        linarith
      · simp only [h1, if_false, h2, if_false, h3, if_false]
        push_cast
        rw [abs_of_nonneg (by linarith)]
        linarith

theorem abs_pyRound_sub_le (q : ℚ) (n : ℕ) :
    |pyRound q n - q| ≤ 1 / (2 * 10 ^ n) := by
  unfold pyRound
  have hpow : (0:ℚ) < 10 ^ n := by positivity
  have h := abs_pyRoundInt_sub_le (q * 10 ^ n)
  have hrw : (pyRoundInt (q * 10 ^ n) : ℚ) / 10 ^ n - q
      = ((pyRoundInt (q * 10 ^ n) : ℚ) - q * 10 ^ n) / 10 ^ n := by
    field_simp
    ring
  rw [hrw, abs_div, abs_of_pos hpow, div_le_div_iff₀ hpow (by positivity)]
  calc |(pyRoundInt (q * 10 ^ n) : ℚ) - q * 10 ^ n| * (2 * 10 ^ n)
      ≤ (1/2) * (2 * 10 ^ n) := by
        have h2 : (0:ℚ) < 2 * 10 ^ n := by positivity
        exact mul_le_mul_of_nonneg_right h (le_of_lt h2)
    _ = 10 ^ n := by ring
    _ = 1 * 10 ^ n := by ring

/-- Every hit emitted by the search loop carries exactly the score and
match type assigned by the scoring chain to its instrument. -/
theorem searchScan_mem_candidateScore (fz : FuzzyFn) (qU qN : String)
    (inc : Bool) :
    ∀ (l : List Instrument) (seen : List String) (h : SearchHit),
      h ∈ InstrumentCatalog.searchScan fz qU qN inc l seen →
      InstrumentCatalog.candidateScore fz qU qN inc h.inst = some (h.score, h.match_type) := by
  intro l
  induction l with
  | nil => intro seen h hm; simp [InstrumentCatalog.searchScan] at hm
  | cons i rest ih =>
    intro seen h hm
    unfold InstrumentCatalog.searchScan at hm
    by_cases hs : pyUpper i.symbol ∈ seen
    · rw [if_pos hs] at hm
      exact ih seen h hm
    · rw [if_neg hs] at hm
      rcases he : InstrumentCatalog.candidateScore fz qU qN inc i with _ | ⟨sc, mt⟩
      · rw [he] at hm
        exact ih seen h hm
      · rw [he] at hm
        rcases List.mem_cons.mp hm with hh | hh
        · subst hh; exact he
        · exact ih _ h hh

/-- Every score assigned by the scoring chain is positive and, when the
fuzzy ratio stays within `[0, 1]`, at most 1. -/
theorem candidateScore_bounds (fz : FuzzyFn) (qU qN : String) (inc : Bool)
    (inst : Instrument) (sc : ℚ) (mt : String)
    (hfz : ∀ a b, 0 ≤ fz a b ∧ fz a b ≤ 1)
    (h : InstrumentCatalog.candidateScore fz qU qN inc inst = some (sc, mt)) :
    0 < sc ∧ sc ≤ 1 := by
  simp only [InstrumentCatalog.candidateScore] at h
  split_ifs at h with h1 h2 h3 h4 h5 h6 h7 h8
  all_goals simp only [Option.some.injEq, Prod.mk.injEq] at h
  all_goals obtain ⟨hsc, hmt⟩ := h
  all_goals subst hsc
  all_goals try norm_num
  have hf0 := (hfz (pyLower qU) (pyLower (pyUpper inst.symbol))).1
  have hf1 := (hfz (pyLower qU) (pyLower (pyUpper inst.symbol))).2
  constructor <;> nlinarith

/-- Hits of the popular-instruments path all carry score 0.5. -/
theorem getPopular_score (insts : List Instrument) (limit offset : ℕ)
    (instType : Option String) (h : SearchHit)
    (hm : h ∈ InstrumentCatalog.getPopular insts limit offset instType) :
    h.score = 1/2 := by
  unfold InstrumentCatalog.getPopular at hm
  have hm' := List.mem_of_mem_take hm
  have hm'' := List.mem_of_mem_drop hm'
  rcases List.mem_filterMap.mp hm'' with ⟨s, _, hf⟩
  rcases ho : InstrumentCatalog.symbolIndex insts s with _ | i <;> rw [ho] at hf
  · simp at hf
  · simp only [Option.bind_eq_bind, Option.some_bind] at hf
    split_ifs at hf with hty
    injection hf with hf'
    subst hf'
    rfl

/-- Every hit returned by `search` has a positive score bounded by 1
(provided the fuzzy ratio stays within `[0, 1]`). -/
theorem search_score_bounds (fz : FuzzyFn) (insts : List Instrument)
    (query : String) (limit offset : ℕ) (instType : Option String)
    (inc : Bool) (h : SearchHit)
    (hfz : ∀ a b, 0 ≤ fz a b ∧ fz a b ≤ 1)
    (hm : h ∈ InstrumentCatalog.search fz insts query limit offset instType inc) :
    0 < h.score ∧ h.score ≤ 1 := by
  unfold InstrumentCatalog.search at hm
  by_cases hq : query = ""
  · rw [if_pos hq] at hm
    rw [getPopular_score insts limit offset instType h hm]
    norm_num
  · rw [if_neg hq] at hm
    have hm' := List.mem_of_mem_drop (List.mem_of_mem_take hm)
    have hm'' := (List.perm_insertionSort _ _).mem_iff.mp hm'
    exact candidateScore_bounds _ _ _ _ _ _ _ hfz
      (searchScan_mem_candidateScore _ _ _ _ _ _ _ hm'')

/-- Asymmetry of the lexicographic string comparison. -/
theorem charsLT_asymm : ∀ x y : List Char, charsLT x y = true → charsLT y x = false
  | [], [] => by intro h; simp [charsLT] at h
  | [], _ :: _ => by intro _; simp [charsLT]
  | _ :: _, [] => by intro h; simp [charsLT] at h
  | a :: as, b :: bs => by
    intro h
    unfold charsLT at h ⊢
    by_cases h1 : a < b
    · rw [if_neg (lt_asymm h1), if_pos h1]
    · rw [if_neg h1] at h
      by_cases h2 : b < a
      · rw [if_pos h2] at h; simp at h
      · rw [if_neg h2] at h
        rw [if_neg h2, if_neg h1]
        exact charsLT_asymm as bs h

/-- Transitivity of the lexicographic string comparison. -/
theorem charsLT_trans : ∀ x y z : List Char,
    charsLT x y = true → charsLT y z = true → charsLT x z = true
  | _, [], [] => by intro _ h2; simp [charsLT] at h2
  | _ :: _, [], _ :: _ => by intro h1 _; simp [charsLT] at h1
  | [], [], _ :: _ => by intro _ _; simp [charsLT]
  | [], _ :: _, [] => by intro _ h2; simp [charsLT] at h2
  | _ :: _, _ :: _, [] => by intro _ h2; simp [charsLT] at h2
  | [], _ :: _, _ :: _ => by intro _ _; simp [charsLT]
  | a :: as, b :: bs, c :: cs => by
    intro h1 h2
    unfold charsLT at h1 h2 ⊢
    by_cases hab : a < b
    · by_cases hbc : b < c
      · rw [if_pos (lt_trans hab hbc)]
      · rw [if_neg hbc] at h2
        by_cases hcb : c < b
        · rw [if_pos hcb] at h2; simp at h2
        · have hbceq : b = c := le_antisymm (not_lt.mp hcb) (not_lt.mp hbc)
          rw [if_pos (hbceq ▸ hab)]
    · rw [if_neg hab] at h1
      by_cases hba : b < a
      · rw [if_pos hba] at h1; simp at h1
      · rw [if_neg hba] at h1
        have habeq : a = b := le_antisymm (not_lt.mp hba) (not_lt.mp hab)
        subst habeq
        by_cases hac : a < c
        · rw [if_pos hac]
        · rw [if_neg hac] at h2 ⊢
          by_cases hca : c < a
          · rw [if_pos hca] at h2; simp at h2
          · rw [if_neg hca] at h2 ⊢
            exact charsLT_trans as bs cs h1 h2

/-- Two strings neither of which lexicographically precedes the other are
equal. -/
theorem charsLT_eq_of_not : ∀ x y : List Char,
    charsLT x y = false → charsLT y x = false → x = y
  | [], [] => by intro _ _; rfl
  | [], _ :: _ => by intro h _; simp [charsLT] at h
  | _ :: _, [] => by intro _ h; simp [charsLT] at h
  | a :: as, b :: bs => by
    intro h1 h2
    unfold charsLT at h1 h2
    by_cases hab : a < b
    · rw [if_pos hab] at h1; simp at h1
    · by_cases hba : b < a
      · rw [if_pos hba] at h2; simp at h2
      · rw [if_neg hab, if_neg hba] at h1
        rw [if_neg hba, if_neg hab] at h2
        have hh : a = b := le_antisymm (not_lt.mp hba) (not_lt.mp hab)
        rw [hh, charsLT_eq_of_not as bs h1 h2]

/-- Reflexivity-containing totality of the Python string `≤`. -/
theorem strLE_total (a b : String) : strLE a b = true ∨ strLE b a = true := by
  unfold strLE
  by_cases h : charsLT b.data a.data = true
  · right
    rw [charsLT_asymm _ _ h]
    rfl
  · left
    have hf : charsLT b.data a.data = false := by
      revert h; cases charsLT b.data a.data <;> simp
    rw [hf]
    rfl

/-- Transitivity of the Python string `≤`. -/
theorem strLE_trans (a b c : String) (h1 : strLE a b = true)
    (h2 : strLE b c = true) : strLE a c = true := by
  unfold strLE at *
  simp only [Bool.not_eq_true'] at h1 h2 ⊢
  by_cases hca : charsLT c.data a.data = true
  · exfalso
    by_cases hbc : charsLT b.data c.data = true
    · have := charsLT_trans _ _ _ hbc hca
      rw [h1] at this
      exact Bool.noConfusion this
    · have hb : charsLT b.data c.data = false := by
        revert hbc; cases charsLT b.data c.data <;> simp
      have heq : b.data = c.data := charsLT_eq_of_not _ _ hb h2
      rw [← heq] at hca
      rw [h1] at hca
      exact Bool.noConfusion hca
  · revert hca; cases charsLT c.data a.data <;> simp

/-- Transitivity of the sort key `(-_score, symbol)`. -/
theorem hitLE_trans (a b c : SearchHit)
    (hab : InstrumentCatalog.hitLE a b = true)
    (hbc : InstrumentCatalog.hitLE b c = true) :
    InstrumentCatalog.hitLE a c = true := by
  unfold InstrumentCatalog.hitLE at *
  by_cases e1 : a.score = b.score
  · rw [if_pos e1] at hab
    by_cases e2 : b.score = c.score
    · rw [if_pos e2] at hbc
      rw [if_pos (e1.trans e2)]
      exact strLE_trans _ _ _ hab hbc
    · rw [if_neg e2] at hbc
      rw [if_neg (fun hh => e2 (e1.symm.trans hh))]
      exact decide_eq_true (by rw [e1]; exact of_decide_eq_true hbc)
  · rw [if_neg e1] at hab
    by_cases e2 : b.score = c.score
    · rw [if_pos e2] at hbc
      rw [if_neg (fun hh => e1 (hh.trans e2.symm))]
      exact decide_eq_true (by rw [← e2]; exact of_decide_eq_true hab)
    · rw [if_neg e2] at hbc
      have hca : c.score < a.score :=
        lt_trans (of_decide_eq_true hbc) (of_decide_eq_true hab)
      rw [if_neg (fun hh : a.score = c.score =>
        lt_irrefl c.score (by rw [hh] at hca; exact hca))]
      exact decide_eq_true hca

/-- Totality of the sort key. -/
theorem hitLE_total (a b : SearchHit) :
    InstrumentCatalog.hitLE a b = true ∨ InstrumentCatalog.hitLE b a = true := by
  unfold InstrumentCatalog.hitLE
  by_cases e : a.score = b.score
  · rw [if_pos e, if_pos e.symm]
    exact strLE_total a.inst.symbol b.inst.symbol
  · rw [if_neg e, if_neg (fun hh => e hh.symm)]
    rcases lt_or_gt_of_ne e with h | h
    · right; exact decide_eq_true h
    · left; exact decide_eq_true h

/-- The nonempty-query output of `search` scores every returned candidate
with the scoring chain. -/
theorem search_mem_candidateScore (fz : FuzzyFn) (insts : List Instrument)
    (query : String) (limit offset : ℕ) (instType : Option String)
    (inc : Bool) (h : SearchHit) (hq : query ≠ "")
    (hm : h ∈ InstrumentCatalog.search fz insts query limit offset instType inc) :
    InstrumentCatalog.candidateScore fz (pyStrip (pyUpper query))
      (InstrumentCatalog.normalize_symbol insts query) inc h.inst
      = some (h.score, h.match_type) := by
  unfold InstrumentCatalog.search at hm
  rw [if_neg hq] at hm
  exact searchScan_mem_candidateScore _ _ _ _ _ _ _
    ((List.perm_insertionSort _ _).mem_iff.mp
      (List.mem_of_mem_drop (List.mem_of_mem_take hm)))

/-- The output of `search` is sorted by descending score with ties broken
by the lexical order of the (original-case) symbol. -/
theorem search_pairwise_sorted (fz : FuzzyFn) (insts : List Instrument)
    (query : String) (limit offset : ℕ) (instType : Option String)
    (inc : Bool) (hq : query ≠ "") :
    (InstrumentCatalog.search fz insts query limit offset instType inc).Pairwise
      (fun a b => b.score < a.score
        ∨ (a.score = b.score ∧ strLE a.inst.symbol b.inst.symbol = true)) := by
  unfold InstrumentCatalog.search
  rw [if_neg hq]
  haveI : IsTotal SearchHit (fun a b => InstrumentCatalog.hitLE a b = true) := ⟨hitLE_total⟩
  haveI : IsTrans SearchHit (fun a b => InstrumentCatalog.hitLE a b = true) := ⟨hitLE_trans⟩
  have hsorted := List.sorted_insertionSort
    (fun a b => InstrumentCatalog.hitLE a b = true)
    (InstrumentCatalog.searchScan fz (pyStrip (pyUpper query))
      (InstrumentCatalog.normalize_symbol insts query) inc
      (match instType with
       | none => insts
       | some t => insts.filter (fun i => i.type == t)) [])
  have hsub : ∀ (l : List SearchHit),
      ((l.drop offset).take limit).Sublist l := by
    intro l
    exact (List.take_sublist _ _).trans (List.drop_sublist _ _)
  refine List.Pairwise.sublist (hsub _) (List.Pairwise.imp ?_ hsorted)
  intro a b hab
  unfold InstrumentCatalog.hitLE at hab
  by_cases e : a.score = b.score
  · rw [if_pos e] at hab
    exact Or.inr ⟨e, hab⟩
  · rw [if_neg e] at hab
    exact Or.inl (of_decide_eq_true hab)

/-- A successful direct mapping carries confidence 1.0 (`"direct"`) or
0.95 (`"direct_case_insensitive"`). -/
theorem try_direct_spec (insts : List Instrument) (broker : BrokerProfile)
    (s bid : String) (r : MappingResult)
    (h : InstrumentMapper.try_direct_mapping insts broker s bid = some r) :
    (r.match_type = "direct" ∧ r.confidence = 1)
    ∨ (r.match_type = "direct_case_insensitive" ∧ r.confidence = 19/20) := by
  unfold InstrumentMapper.try_direct_mapping at h
  rcases hd : dictFind broker.symbol_mappings s with _ | c <;> simp only [hd] at h
  · rcases hf : broker.symbol_mappings.find? (fun p => pyUpper p.1 == pyUpper s)
        with _ | p <;> simp only [hf] at h
    · exact Option.noConfusion h
    · injection h with h'
      subst h'
      right
      exact ⟨rfl, rfl⟩
  · injection h with h'
    subst h'
    left
    exact ⟨rfl, rfl⟩

/-- A successful pattern mapping carries confidence 0.9. -/
theorem try_pattern_spec (rm : ReMatchFn) (insts : List Instrument)
    (broker : BrokerProfile) (s bid : String) (r : MappingResult)
    (h : InstrumentMapper.try_pattern_mapping rm insts broker s bid = some r) :
    r.match_type = "pattern" ∧ r.confidence = 9/10 := by
  unfold InstrumentMapper.try_pattern_mapping at h
  rcases List.exists_of_findSome?_eq_some h with ⟨rule, _, hr⟩
  rcases hm : rm rule.pattern s with _ | groups <;> rw [hm] at hr
  · exact Option.noConfusion hr
  · simp only at hr
    rcases hres : InstrumentCatalog.resolve_symbol insts
        (InstrumentMapper.substGroups rule.canonical groups) with _ | inst <;>
      rw [hres] at hr
    · exact Option.noConfusion hr
    · injection hr with hr'
      subst hr'
      exact ⟨rfl, rfl⟩

/-- `_fuzzy_map` yields either a fuzzy result with confidence in
`[0.48, 0.8]` or the unmapped result with confidence 0.3, the normalized
symbol, and exactly one appended warning. -/
theorem fuzzy_map_cases (fz : FuzzyFn) (insts : List Instrument)
    (s bid : String) (ws : List String)
    (hfz : ∀ a b, 0 ≤ fz a b ∧ fz a b ≤ 1) :
    ((InstrumentMapper.fuzzy_map fz insts s bid ws).match_type = "fuzzy"
      ∧ 12/25 ≤ (InstrumentMapper.fuzzy_map fz insts s bid ws).confidence
      ∧ (InstrumentMapper.fuzzy_map fz insts s bid ws).confidence ≤ 4/5)
    ∨ (InstrumentMapper.fuzzy_map fz insts s bid ws
        = { canonical_symbol := InstrumentMapper.normalize_symbol_m s
            original_symbol := s
            broker_id := bid
            confidence := 3/10
            match_type := "unmapped"
            warnings := some (ws ++ [InstrumentMapper.unmappedWarning s]) }) := by
  unfold InstrumentMapper.fuzzy_map
  rcases hh : (InstrumentCatalog.search fz insts
      (InstrumentMapper.normalize_symbol_m s) 5 0 none true).head? with _ | best <;>
    simp only [hh]
  · right; first | rfl | trivial
  · by_cases hsc : 6/10 ≤ best.score
    · rw [if_pos hsc]
      left
      refine ⟨rfl, ?_, ?_⟩
      · show 12/25 ≤ best.score * (8/10)
        nlinarith
      · show best.score * (8/10) ≤ 4/5
        have hb := search_score_bounds fz insts _ 5 0 none true best hfz
          (List.mem_of_mem_head? (by rw [hh]; exact Option.mem_def.mpr rfl))
        nlinarith [hb.2]
    · rw [if_neg hsc]
      right; rfl

/-- `_fuzzy_map` satisfies the per-tier confidence table. -/
theorem fuzzy_map_confByTier (fz : FuzzyFn) (insts : List Instrument)
    (s bid : String) (ws : List String)
    (hfz : ∀ a b, 0 ≤ fz a b ∧ fz a b ≤ 1) :
    ConfByTier (InstrumentMapper.fuzzy_map fz insts s bid ws) := by
  rcases fuzzy_map_cases fz insts s bid ws hfz with ⟨hmt, hc1, hc2⟩ | heq
  · refine ⟨?_, ?_, ?_, ?_, ?_, ?_⟩ <;> intro hm <;>
      first
        | exact ⟨hc1, hc2⟩
        | (rw [hmt] at hm; simp at hm)
  · rw [heq]
    refine ⟨?_, ?_, ?_, ?_, ?_, ?_⟩ <;> intro hm <;>
      first
        | rfl
        | simp at hm

/-- Every `map_symbol` outcome satisfies the per-tier confidence table. -/
theorem map_symbol_confByTier (fz : FuzzyFn) (rm : ReMatchFn)
    (brokers : List BrokerProfile) (insts : List Instrument) (s bid : String)
    (hfz : ∀ a b, 0 ≤ fz a b ∧ fz a b ≤ 1) :
    ConfByTier (InstrumentMapper.map_symbol fz rm brokers insts s bid) := by
  unfold InstrumentMapper.map_symbol
  rcases hb : brokers.find? (fun b => b.id == bid) with _ | broker <;> simp only [hb]
  · unfold InstrumentMapper.fallback_map
    rcases hres : InstrumentCatalog.resolve_symbol insts
        (InstrumentMapper.normalize_symbol_m s) with _ | inst <;> simp only [hres]
    · exact fuzzy_map_confByTier fz insts s bid _ hfz
    · refine ⟨?_, ?_, ?_, ?_, ?_, ?_⟩ <;> intro hm <;> simp at hm
  · rcases hd : InstrumentMapper.try_direct_mapping insts broker s bid with _ | r <;>
      simp only [hd]
    · rcases hp : InstrumentMapper.try_pattern_mapping rm insts broker s bid with _ | r <;>
        simp only [hp]
      · rcases hres : InstrumentCatalog.resolve_symbol insts
            (InstrumentMapper.normalize_symbol_m s) with _ | inst <;> simp only [hres]
        · exact fuzzy_map_confByTier fz insts s bid _ hfz
        · refine ⟨?_, ?_, ?_, ?_, ?_, ?_⟩ <;> intro hm <;>
            first
              | rfl
              | simp at hm
      · rcases try_pattern_spec rm insts broker s bid r hp with ⟨hmt, hc⟩
        refine ⟨?_, ?_, ?_, ?_, ?_, ?_⟩ <;> intro hm <;>
          first
            | exact hc
            | (rw [hmt] at hm; simp at hm)
    · rcases try_direct_spec insts broker s bid r hd with ⟨hmt, hc⟩ | ⟨hmt, hc⟩ <;>
        refine ⟨?_, ?_, ?_, ?_, ?_, ?_⟩ <;> intro hm <;>
        first
          | exact hc
          | (rw [hmt] at hm; simp at hm)

/-- A record's rebuilt `validation_errors` list is empty exactly when the
four §3 validity conditions hold and additionally the mapping confidence
is at least 0.5. -/
theorem validateOne_errors_iff (t : TradeRecord) :
    (validateOne t).validation_errors = []
    ↔ (t.broker_symbol ≠ "" ∧ 0 < t.entry_price ∧ 0 < t.lot_size
       ∧ t.entry_date ≠ none ∧ 1/2 ≤ t.mapping_confidence) := by
  unfold validateOne
  split_ifs with h1 h2 h3 h4 h5 <;> simp_all [not_le, not_lt]

/-- `validateOne` changes only the `validation_errors` field. -/
theorem validateOne_fields (t : TradeRecord) :
    (validateOne t).broker_ticket = t.broker_ticket
    ∧ (validateOne t).broker_symbol = t.broker_symbol
    ∧ (validateOne t).entry_price = t.entry_price
    ∧ (validateOne t).lot_size = t.lot_size
    ∧ (validateOne t).entry_date = t.entry_date
    ∧ (validateOne t).mapping_confidence = t.mapping_confidence
    ∧ (validateOne t).profit_loss = t.profit_loss := by
  unfold validateOne
  exact ⟨rfl, rfl, rfl, rfl, rfl, rfl, rfl⟩

/-- The P&L completion step succeeds only when it had nothing to do, and
then returns the records unchanged. -/
theorem calculate_pnl_step_ok (insts : List Instrument) :
    ∀ (l l' : List TradeRecord),
      BaseImporter.calculate_pnl_step insts l = .ok l' → l' = l := by
  intro l
  induction l with
  | nil =>
    intro l' h
    unfold BaseImporter.calculate_pnl_step at h
    injection h with h'
    exact h'.symm
  | cons t ts ih =>
    intro l' h
    unfold BaseImporter.calculate_pnl_step at h
    by_cases hc : t.profit_loss.isNone ∧ t.exit_price.isSome
    · rw [if_pos hc] at h
      simp only [pyDictAttrPnl] at h
      exact Except.noConfusion h
    · rw [if_neg hc] at h
      cases hrec : BaseImporter.calculate_pnl_step insts ts with
      | error e =>
        rw [hrec] at h
        exact Except.noConfusion h
      | ok ts' =>
        rw [hrec] at h
        injection h with h'
        rw [← h', ih ts' hrec]

/-- The symbol-mapping step leaves `trade_type` untouched on the records
it returns. -/
theorem map_symbols_step_trade_type (fz : FuzzyFn) (rm : ReMatchFn)
    (brokers : List BrokerProfile) (insts : List Instrument) (bid : String) :
    ∀ (l l' : List TradeRecord),
      BaseImporter.map_symbols_step fz rm brokers insts bid l = .ok l' →
      ∀ t' ∈ l', ∃ t ∈ l, t'.trade_type = t.trade_type := by
  intro l
  induction l with
  | nil =>
    intro l' h t' ht'
    unfold BaseImporter.map_symbols_step at h
    injection h with h'
    rw [← h'] at ht'
    exact absurd ht' (by simp)
  | cons t ts ih =>
    intro l' h t' ht'
    unfold BaseImporter.map_symbols_step at h
    by_cases hb : (brokers.any (fun b => b.id == t.broker_symbol)) = true
    · rw [if_pos hb] at h
      exact Except.noConfusion h
    · rw [if_neg hb] at h
      cases hrec : BaseImporter.map_symbols_step fz rm brokers insts bid ts with
      | error e =>
        rw [hrec] at h
        exact Except.noConfusion h
      | ok ts' =>
        rw [hrec] at h
        injection h with h'
        rw [← h'] at ht'
        rcases List.mem_cons.mp ht' with hh | hh
        · subst hh
          exact ⟨t, List.mem_cons_self t ts, rfl⟩
        · rcases ih ts' hrec t' hh with ⟨t0, ht0, htt⟩
          exact ⟨t0, List.mem_cons_of_mem t ht0, htt⟩

/-- A row accepted by the MT4/MT5 row parser has none of the filtered
non-trade types. -/
theorem mt5_parse_row_type (strp : String → String → Option ℤ)
    (cmap : List (String × ℕ)) (row : List String) (n : ℕ) (t : TradeRecord)
    (h : MT5Parser.parse_row strp cmap row n = some t) :
    ¬ pyLower t.trade_type ∈ nonTradeTypes := by
  unfold MT5Parser.parse_row at h
  rcases hs : MT5Parser.get_value cmap row "symbol" with _ | symbol <;>
    simp only [hs] at h
  · exact Option.noConfusion h
  · by_cases he : symbol = ""
    · rw [if_pos he] at h
      exact Option.noConfusion h
    · rw [if_neg he] at h
      by_cases hm : pyLower (pyOrStr (MT5Parser.get_value cmap row "type") "")
          ∈ ["balance", "deposit", "withdrawal", "credit", "rebate"]
      · rw [if_pos hm] at h
        exact Option.noConfusion h
      · rw [if_neg hm] at h
        injection h with h'
        subst h'
        simpa [nonTradeTypes] using hm

section RatEval
/- Batteries marks the `Rat` arithmetic operations `@[irreducible]`; making
them semireducible locally lets `decide` evaluate the embedded functions on
the concrete inputs of the scenarios below. -/
attribute [local semireducible] Rat.add Rat.mul Rat.inv Rat.sub Rat.ofScientific

set_option maxRecDepth 8000

/-- C1: parsing the Scenario A CSV row (symbol=EURUSD, type=buy,
lots=0.10, open_price=1.1000, close_price=1.1050 — `profit_loss` absent,
`exit_price` present) does NOT complete the record with a computed P&L:
the `calculate_pnl` wrapper returns a dict, `BaseImporter._calculate_pnl`
reads the attribute `result.pnl` from it, the resulting `AttributeError`
is caught by the importer's outer `try/except`, and the whole parse fails
with `success = false` and no trades.  The P&L the engine would have
produced for this trade (last three conjuncts) is positive with a 50-pip
move, as the claim expects, so the completion wiring — not the formula —
is at fault. -/
theorem C1_scenarioA_pnl_completion_crashes :
    (CSVImporter.parse_rows strpNone fzZero rmNone [] [instEURUSD] "generic" false
        CSVImporter.generic_columns "%Y-%m-%d %H:%M:%S" scenarioAHeaders
        [scenarioARow]).success = false
    ∧ (CSVImporter.parse_rows strpNone fzZero rmNone [] [instEURUSD] "generic" false
        CSVImporter.generic_columns "%Y-%m-%d %H:%M:%S" scenarioAHeaders
        [scenarioARow]).trades = []
    ∧ (CSVImporter.parse_rows strpNone fzZero rmNone [] [instEURUSD] "generic" false
        CSVImporter.generic_columns "%Y-%m-%d %H:%M:%S" scenarioAHeaders
        [scenarioARow]).message
      = "Failed to parse CSV: AttributeError: dict object has no attribute pnl"
    ∧ 0 < (PnLEngine.calculate_forex (11/10) (221/200) (1/10) "lots" "buy"
        metaEURUSD none "USD").pnl
    ∧ (PnLEngine.calculate_forex (11/10) (221/200) (1/10) "lots" "buy"
        metaEURUSD none "USD").pnl = 50
    ∧ (PnLEngine.calculate_forex (11/10) (221/200) (1/10) "lots" "buy"
        metaEURUSD none "USD").pip_move = some 50 := by
  refine ⟨?_, ?_, ?_, ?_, ?_, ?_⟩ <;> decide

/-- C3: neither symbol normalization routine strips the dot suffixes
`.m/.pro/.ecn/.raw`: both remove every separator character (including the
dot) first, so the anchored suffix patterns that require a literal dot can
never match afterwards.  Normalizing `EURUSD.ecn` therefore yields
`EURUSDECN`, not `EURUSD`, and the mapper's normalization tier cannot
resolve the symbol (the mapping falls through to `unmapped`), although the
repository's own test `test_mt4_suffix_stripping` expects `EURUSD`. -/
theorem C3_suffix_stripping_dead_after_separator_removal :
    InstrumentMapper.normalize_symbol_m "EURUSD.ecn" = "EURUSDECN"
    ∧ InstrumentCatalog.normalize_symbol catC3 "EURUSD.ecn" = "EURUSDECN"
    ∧ "EURUSDECN" ≠ "EURUSD"
    ∧ (InstrumentMapper.map_symbol fzZero rmNone [profMT4] catC3
        "EURUSD.ecn" "mt4_generic").match_type = "unmapped"
    ∧ (InstrumentMapper.map_symbol fzZero rmNone [profMT4] catC3
        "EURUSD.ecn" "mt4_generic").canonical_symbol = "EURUSDECN" := by
  refine ⟨?_, ?_, ?_, ?_, ?_⟩ <;> decide

end RatEval

section RatEval2
attribute [local semireducible] Rat.add Rat.mul Rat.inv Rat.sub Rat.ofScientific
set_option maxRecDepth 8000

/-- C2 counterexample: the claim that non-positive `entryPrice`,
`exitPrice` or `size` is rejected with a typed validation failure is false
at a concrete input: `PnLCalculator.calculate_pnl` with `entry = -1`
silently returns `(0.0, 0.0)` (the very zero-coercion the claim rules
out), and `PnLEngine.calculate` with `entry = -1` returns an ordinary
numeric P&L result (`pnl = 2`); no typed `InvalidInput`/`CalculationError`
failure exists anywhere in the code. -/
theorem C2_counterexample_silent_zero_coercion :
    PnLCalculator.calculate_pnl
      { instrument_type := .FOREX, pip_size := 1/10000, tick_value := 1, contract_size := 1 }
      (-1) 1 1 "BUY" = (0, 0)
    ∧ (PnLEngine.calculate [] "X" (-1) 1 1 "lots" "buy"
        (some { type := "crypto", contract_size := some 1 }) none "USD").pnl = 2 := by
  constructor <;> decide

end RatEval2

/-- C2 amended: the engines perform no typed input validation.  For every
calculator configuration and every call with `entryPrice ≤ 0`,
`exitPrice ≤ 0` or `quantity ≤ 0`, `PnLCalculator.calculate_pnl` silently
coerces the result to `(0.0, 0.0)` instead of rejecting the input;
`PnLEngine.calculate` applies its formulas unconditionally (see the C2
counterexample for a concrete numeric result on invalid input). -/
theorem C2_amended_nonpositive_inputs_silently_zeroed
    (c : PnLCalculator) (entry exi q : ℚ) (dir : String)
    (h : entry ≤ 0 ∨ exi ≤ 0 ∨ q ≤ 0) :
    PnLCalculator.calculate_pnl c entry exi q dir = (0, 0) := by
  unfold PnLCalculator.calculate_pnl
  rw [if_pos h]

/-- C2 witness: the amended statement at the concrete input
`entry = 0, exit = 1, quantity = 1`. -/
theorem C2_amended_witness :
    (0:ℚ) ≤ 0 ∧ PnLCalculator.calculate_pnl
      { instrument_type := .STOCK } 0 1 1 "BUY" = (0, 0) :=
  ⟨le_refl 0,
   C2_amended_nonpositive_inputs_silently_zeroed
     { instrument_type := .STOCK } 0 1 1 "BUY" (Or.inl (le_refl 0))⟩

section RatEval3
attribute [local semireducible] Rat.add Rat.mul Rat.inv Rat.sub Rat.ofScientific
set_option maxRecDepth 8000

/-- C4 counterexample: in the catalog `catC4`, the candidate `XGOLDX`
has the query `GOLD` as an exact alias AND contains the query in its
symbol; the claim says the alias-exact tier (0.85) must win, but `search`
evaluates the contains tier (0.7) before any alias tier and returns score
0.7 with match type `contains`. -/
theorem C4_counterexample_contains_tier_beats_alias_exact :
    strContains "XGOLDX" "GOLD" = true
    ∧ "GOLD" ∈ instXGOLDX.aliases
    ∧ (InstrumentCatalog.search fzZero catC4 "GOLD" 20 0 none true).map
        (fun h => (h.inst.symbol, h.score, h.match_type))
      = [("ZZZ", 1, "exact"), ("XGOLDX", 7/10, "contains")]
    ∧ ((7:ℚ)/10 ≠ 85/100) := by
  refine ⟨?_, ?_, ?_, ?_⟩ <;> decide

/-- C4 amended: the tier order actually implemented evaluates, per
candidate: exact (1.0), symbol starts-with (0.9), symbol/display-name
contains (0.7), alias exact (0.85), alias starts-with (0.75), alias
contains (0.65), fuzzy (ratio × 0.6, cut off below 0.5) — i.e. the
contains tier is checked BEFORE the alias tiers, so a candidate whose
symbol contains the query and whose alias equals the query exactly scores
0.7 (`contains`), not 0.85.  Results are sorted by descending score with
ties broken by the lexical order of the symbol. -/
theorem C4_amended_search_tier_order (fz : FuzzyFn) (insts : List Instrument)
    (query : String) (limit offset : ℕ) (instType : Option String)
    (inc : Bool) (hq : query ≠ "") :
    (∀ h ∈ InstrumentCatalog.search fz insts query limit offset instType inc,
      (strContains (pyUpper h.inst.symbol) (pyStrip (pyUpper query)) = true
        ∨ strContains (pyUpper h.inst.display_name) (pyStrip (pyUpper query)) = true) →
      ¬ (pyUpper h.inst.symbol = pyStrip (pyUpper query)
         ∨ pyUpper h.inst.symbol = InstrumentCatalog.normalize_symbol insts query) →
      pyStartsWith (pyUpper h.inst.symbol) (pyStrip (pyUpper query)) = false →
      h.score = 7/10 ∧ h.match_type = "contains")
    ∧ (InstrumentCatalog.search fz insts query limit offset instType inc).Pairwise
        (fun a b => b.score < a.score
          ∨ (a.score = b.score ∧ strLE a.inst.symbol b.inst.symbol = true)) := by
  constructor
  · intro h hm hcontains hexact hsw
    have hcs := search_mem_candidateScore fz insts query limit offset instType inc h hq hm
    simp only [InstrumentCatalog.candidateScore] at hcs
    rw [if_neg hexact] at hcs
    rw [if_neg (by rw [hsw]; exact Bool.noConfusion)] at hcs
    rw [if_pos hcontains] at hcs
    simp only [Option.some.injEq, Prod.mk.injEq] at hcs
    exact ⟨hcs.1.symm, hcs.2.symm⟩
  · exact search_pairwise_sorted fz insts query limit offset instType inc hq

/-- C4 witness: the amended tier rule applied to the concrete hit
produced for `XGOLDX` on query `GOLD`. -/
theorem C4_amended_witness :
    (⟨instXGOLDX, 7/10, "contains"⟩ : SearchHit)
        ∈ InstrumentCatalog.search fzZero catC4 "GOLD" 20 0 none true
    ∧ (⟨instXGOLDX, 7/10, "contains"⟩ : SearchHit).score = 7/10
    ∧ (⟨instXGOLDX, 7/10, "contains"⟩ : SearchHit).match_type = "contains" := by
  refine ⟨by decide, ?_⟩
  have h := (C4_amended_search_tier_order fzZero catC4 "GOLD" 20 0 none true
    (by decide)).1 ⟨instXGOLDX, 7/10, "contains"⟩ (by decide) (by decide)
    (by decide) (by decide)
  exact h

end RatEval3

section RatEval4
attribute [local semireducible] Rat.add Rat.mul Rat.inv Rat.sub Rat.ofScientific
set_option maxRecDepth 8000

/-- C5 counterexample: the round-trip is NOT within ±0.01 for every
input.  With the standard forex configuration (pip 0.0001, contract size
100000), entry 1, quantity 1 and target P&L 123.45, the reverse
calculation rounds the implied exit price 1.00012345 to 4 decimal places
(1.0001), and the forward calculation on that exit returns 100.00 — off
by 23.45. -/
theorem C5_counterexample_exit_rounding_breaks_roundtrip :
    PnLCalculator.reverse_calculate_exit cFx 1 1 (2469/20) "BUY" = 10001/10000
    ∧ (PnLCalculator.calculate_pnl cFx 1
        (PnLCalculator.reverse_calculate_exit cFx 1 1 (2469/20) "BUY") 1 "BUY").1 = 100
    ∧ ¬ ((100:ℚ) - 2469/20 ≤ 1/100 ∧ -(1/100) ≤ (100:ℚ) - 2469/20) := by
  refine ⟨by decide, by decide, ?_⟩
  intro hcontra
  have := hcontra.2
  norm_num at this

end RatEval4

/-- C5 amended: the round-trip identity holds up to the final 2-decimal
rounding of the P&L — hence within ±0.01 — PROVIDED the implied exit
price survives the 4-decimal rounding applied by `reverse_calculate_exit`
unchanged (and the inputs are in the valid range: positive entry,
quantity, pip size, tick value and contract size, and a positive implied
exit).  Without the exit-representability hypothesis the property fails
(see the C5 counterexample). -/
theorem C5_amended_roundtrip_with_representable_exit
    (c : PnLCalculator) (entry quantity target : ℚ) (dir : String)
    (hentry : 0 < entry) (hq : 0 < quantity)
    (hpip : 0 < c.pip_size) (htick : 0 < c.tick_value) (hcs : 0 < c.contract_size)
    (hrep : pyRound (PnLCalculator.exitOf entry
        ((PnLCalculator.revPriceDiff c quantity target).getD 0) dir) 4
      = PnLCalculator.exitOf entry
        ((PnLCalculator.revPriceDiff c quantity target).getD 0) dir)
    (hpos : 0 < PnLCalculator.exitOf entry
        ((PnLCalculator.revPriceDiff c quantity target).getD 0) dir) :
    (PnLCalculator.calculate_pnl c entry
        (PnLCalculator.reverse_calculate_exit c entry quantity target dir)
        quantity dir).1 = pyRound target 2
    ∧ |(PnLCalculator.calculate_pnl c entry
        (PnLCalculator.reverse_calculate_exit c entry quantity target dir)
        quantity dir).1 - target| ≤ 1/100 := by
  have hq' : quantity ≠ 0 := ne_of_gt hq
  have hps : c.pip_size ≠ 0 := ne_of_gt hpip
  have htv : c.tick_value ≠ 0 := ne_of_gt htick
  have hcs' : c.contract_size ≠ 0 := ne_of_gt hcs
  have hguard : ¬ (entry ≤ 0 ∨ quantity ≤ 0) := by push_neg; exact ⟨hentry, hq⟩
  have hEq : (PnLCalculator.calculate_pnl c entry
      (PnLCalculator.reverse_calculate_exit c entry quantity target dir)
      quantity dir).1 = pyRound target 2 := by
    rcases hit : c.instrument_type with _ | _ | _ | _ | _
    · have hne : c.pip_size * c.contract_size * 10 * quantity ≠ 0 := by positivity
      have hpd : PnLCalculator.revPriceDiff c quantity target
          = some (target / (c.pip_size * c.contract_size * 10 * quantity) * c.pip_size) := by
        unfold PnLCalculator.revPriceDiff
        simp only [hit]
        rw [if_neg hne]
      simp only [hpd, Option.getD_some] at hrep hpos
      have hrev : PnLCalculator.reverse_calculate_exit c entry quantity target dir
          = PnLCalculator.exitOf entry
              (target / (c.pip_size * c.contract_size * 10 * quantity) * c.pip_size) dir := by
        unfold PnLCalculator.reverse_calculate_exit
        rw [if_neg hguard]
        simp only [hpd]
        exact hrep
      rw [hrev]
      unfold PnLCalculator.calculate_pnl
      rw [if_neg (by push_neg; exact ⟨hentry, hpos, hq⟩)]
      simp only [hit]
      have hpdiff : (if pyUpper dir = "BUY"
            then PnLCalculator.exitOf entry
              (target / (c.pip_size * c.contract_size * 10 * quantity) * c.pip_size) dir - entry
            else entry - PnLCalculator.exitOf entry
              (target / (c.pip_size * c.contract_size * 10 * quantity) * c.pip_size) dir)
          = target / (c.pip_size * c.contract_size * 10 * quantity) * c.pip_size := by
        unfold PnLCalculator.exitOf
        by_cases hd : pyUpper dir = "BUY" <;> simp [hd] <;> ring
      rw [hpdiff]
      have harith : target / (c.pip_size * c.contract_size * 10 * quantity) * c.pip_size
          / c.pip_size * (c.pip_size * c.contract_size * 10) * (quantity / 1) = target := by
        field_simp
        ring
      rw [harith]
    · have hne : c.tick_value * quantity ≠ 0 := by positivity
      have hpd : PnLCalculator.revPriceDiff c quantity target
          = some (target / (c.tick_value * quantity)) := by
        unfold PnLCalculator.revPriceDiff
        simp only [hit]
        rw [if_neg hne]
      simp only [hpd, Option.getD_some] at hrep hpos
      have hrev : PnLCalculator.reverse_calculate_exit c entry quantity target dir
          = PnLCalculator.exitOf entry (target / (c.tick_value * quantity)) dir := by
        unfold PnLCalculator.reverse_calculate_exit
        rw [if_neg hguard]
        simp only [hpd]
        exact hrep
      rw [hrev]
      unfold PnLCalculator.calculate_pnl
      rw [if_neg (by push_neg; exact ⟨hentry, hpos, hq⟩)]
      simp only [hit]
      have hpdiff : (if pyUpper dir = "BUY"
            then PnLCalculator.exitOf entry (target / (c.tick_value * quantity)) dir - entry
            else entry - PnLCalculator.exitOf entry (target / (c.tick_value * quantity)) dir)
          = target / (c.tick_value * quantity) := by
        unfold PnLCalculator.exitOf
        by_cases hd : pyUpper dir = "BUY" <;> simp [hd] <;> ring
      rw [hpdiff]
      have harith : target / (c.tick_value * quantity) * c.tick_value * quantity = target := by
        field_simp
        ring
      rw [harith]
    · have hpd : PnLCalculator.revPriceDiff c quantity target
          = some (target / quantity) := by
        unfold PnLCalculator.revPriceDiff
        simp only [hit]
        rw [if_neg hq']
      simp only [hpd, Option.getD_some] at hrep hpos
      have hrev : PnLCalculator.reverse_calculate_exit c entry quantity target dir
          = PnLCalculator.exitOf entry (target / quantity) dir := by
        unfold PnLCalculator.reverse_calculate_exit
        rw [if_neg hguard]
        simp only [hpd]
        exact hrep
      rw [hrev]
      unfold PnLCalculator.calculate_pnl
      rw [if_neg (by push_neg; exact ⟨hentry, hpos, hq⟩)]
      simp only [hit]
      have hpdiff : (if pyUpper dir = "BUY"
            then PnLCalculator.exitOf entry (target / quantity) dir - entry
            else entry - PnLCalculator.exitOf entry (target / quantity) dir)
          = target / quantity := by
        unfold PnLCalculator.exitOf
        by_cases hd : pyUpper dir = "BUY" <;> simp [hd] <;> ring
      rw [hpdiff]
      have harith : target / quantity * quantity = target := div_mul_cancel₀ target hq'
      rw [harith]
    · have hpd : PnLCalculator.revPriceDiff c quantity target
          = some (target / quantity) := by
        unfold PnLCalculator.revPriceDiff
        simp only [hit]
        rw [if_neg hq']
      simp only [hpd, Option.getD_some] at hrep hpos
      have hrev : PnLCalculator.reverse_calculate_exit c entry quantity target dir
          = PnLCalculator.exitOf entry (target / quantity) dir := by
        unfold PnLCalculator.reverse_calculate_exit
        rw [if_neg hguard]
        simp only [hpd]
        exact hrep
      rw [hrev]
      unfold PnLCalculator.calculate_pnl
      rw [if_neg (by push_neg; exact ⟨hentry, hpos, hq⟩)]
      simp only [hit]
      have hpdiff : (if pyUpper dir = "BUY"
            then PnLCalculator.exitOf entry (target / quantity) dir - entry
            else entry - PnLCalculator.exitOf entry (target / quantity) dir)
          = target / quantity := by
        unfold PnLCalculator.exitOf
        by_cases hd : pyUpper dir = "BUY" <;> simp [hd] <;> ring
      rw [hpdiff]
      have harith : target / quantity * quantity = target := div_mul_cancel₀ target hq'
      rw [harith]
    · have hne : c.contract_size * quantity ≠ 0 := by positivity
      have hpd : PnLCalculator.revPriceDiff c quantity target
          = some (target / (c.contract_size * quantity)) := by
        unfold PnLCalculator.revPriceDiff
        simp only [hit]
        rw [if_neg hne]
      simp only [hpd, Option.getD_some] at hrep hpos
      have hrev : PnLCalculator.reverse_calculate_exit c entry quantity target dir
          = PnLCalculator.exitOf entry (target / (c.contract_size * quantity)) dir := by
        unfold PnLCalculator.reverse_calculate_exit
        rw [if_neg hguard]
        simp only [hpd]
        exact hrep
      rw [hrev]
      unfold PnLCalculator.calculate_pnl
      rw [if_neg (by push_neg; exact ⟨hentry, hpos, hq⟩)]
      simp only [hit]
      have hpdiff : (if pyUpper dir = "BUY"
            then PnLCalculator.exitOf entry (target / (c.contract_size * quantity)) dir - entry
            else entry - PnLCalculator.exitOf entry (target / (c.contract_size * quantity)) dir)
          = target / (c.contract_size * quantity) := by
        unfold PnLCalculator.exitOf
        by_cases hd : pyUpper dir = "BUY" <;> simp [hd] <;> ring
      rw [hpdiff]
      have harith : target / (c.contract_size * quantity) * c.contract_size * quantity = target := by
        field_simp
        ring
      rw [harith]
  refine ⟨hEq, ?_⟩
  rw [hEq]
  have hb := abs_pyRound_sub_le target 2
  have h200 : (1:ℚ) / (2 * 10 ^ 2) = 1/200 := by norm_num
  rw [h200] at hb
  linarith [abs_nonneg (pyRound target 2 - target)]

section RatEval5
attribute [local semireducible] Rat.add Rat.mul Rat.inv Rat.sub Rat.ofScientific
set_option maxRecDepth 8000

/-- C5 witness: the amended round-trip at the concrete forex input
entry 1.1, quantity 1, target 100 (implied exit 1.1001, exactly
representable at 4 decimals). -/
theorem C5_amended_witness :
    (PnLCalculator.calculate_pnl cFx (11/10)
        (PnLCalculator.reverse_calculate_exit cFx (11/10) 1 100 "BUY") 1 "BUY").1
      = pyRound 100 2
    ∧ |(PnLCalculator.calculate_pnl cFx (11/10)
        (PnLCalculator.reverse_calculate_exit cFx (11/10) 1 100 "BUY") 1 "BUY").1
        - 100| ≤ 1/100 :=
  C5_amended_roundtrip_with_representable_exit cFx (11/10) 1 100 "BUY"
    (by decide) (by decide) (by decide) (by decide) (by decide)
    (by decide) (by decide)

end RatEval5

/-- C6: the resolution-tier confidences are strictly ordered.  For any
two invocations of `map_symbol` against the same catalog and broker
profiles (with the fuzzy ratio in `[0, 1]`, as `SequenceMatcher.ratio`
guarantees): a direct match (1.0 or 0.95) beats a pattern match (0.9),
which beats a normalized match (0.85), which beats every attainable fuzzy
confidence (at most 0.8), which beats the unmapped confidence (0.3, below
the fuzzy floor of 0.48). -/
theorem C6_confidence_tier_ordering (fz : FuzzyFn) (rm : ReMatchFn)
    (brokers : List BrokerProfile) (insts : List Instrument)
    (hfz : ∀ a b, 0 ≤ fz a b ∧ fz a b ≤ 1) (s₁ b₁ s₂ b₂ : String) :
    (((InstrumentMapper.map_symbol fz rm brokers insts s₁ b₁).match_type = "direct"
        ∨ (InstrumentMapper.map_symbol fz rm brokers insts s₁ b₁).match_type
          = "direct_case_insensitive")
      ∧ (InstrumentMapper.map_symbol fz rm brokers insts s₂ b₂).match_type = "pattern"
      → (InstrumentMapper.map_symbol fz rm brokers insts s₂ b₂).confidence
        < (InstrumentMapper.map_symbol fz rm brokers insts s₁ b₁).confidence)
    ∧ ((InstrumentMapper.map_symbol fz rm brokers insts s₁ b₁).match_type = "pattern"
      ∧ (InstrumentMapper.map_symbol fz rm brokers insts s₂ b₂).match_type = "normalized"
      → (InstrumentMapper.map_symbol fz rm brokers insts s₂ b₂).confidence
        < (InstrumentMapper.map_symbol fz rm brokers insts s₁ b₁).confidence)
    ∧ ((InstrumentMapper.map_symbol fz rm brokers insts s₁ b₁).match_type = "normalized"
      ∧ (InstrumentMapper.map_symbol fz rm brokers insts s₂ b₂).match_type = "fuzzy"
      → (InstrumentMapper.map_symbol fz rm brokers insts s₂ b₂).confidence
        < (InstrumentMapper.map_symbol fz rm brokers insts s₁ b₁).confidence)
    ∧ ((InstrumentMapper.map_symbol fz rm brokers insts s₁ b₁).match_type = "fuzzy"
      ∧ (InstrumentMapper.map_symbol fz rm brokers insts s₂ b₂).match_type = "unmapped"
      → (InstrumentMapper.map_symbol fz rm brokers insts s₂ b₂).confidence
        < (InstrumentMapper.map_symbol fz rm brokers insts s₁ b₁).confidence) := by
  obtain ⟨d1, dci1, p1, n1, f1, u1⟩ := map_symbol_confByTier fz rm brokers insts s₁ b₁ hfz
  obtain ⟨d2, dci2, p2, n2, f2, u2⟩ := map_symbol_confByTier fz rm brokers insts s₂ b₂ hfz
  refine ⟨?_, ?_, ?_, ?_⟩
  · rintro ⟨hd | hd, hp⟩
    · rw [d1 hd, p2 hp]; norm_num
    · rw [dci1 hd, p2 hp]; norm_num
  · rintro ⟨hp, hn⟩
    rw [p1 hp, n2 hn]; norm_num
  · rintro ⟨hn, hf⟩
    rw [n1 hn]
    linarith [(f2 hf).2]
  · rintro ⟨hf, hu⟩
    rw [u2 hu]
    linarith [(f1 hf).1]

section RatEvalC6
attribute [local semireducible] Rat.add Rat.mul Rat.inv Rat.sub Rat.ofScientific
set_option maxRecDepth 8000

/-- C6 witness: with EURUSD in the catalog and the generic MT4 profile,
`EURUSD` resolves at the normalized tier (0.85) and `EURUSDX` at the
fuzzy tier, and the theorem yields the strict confidence comparison. -/
theorem C6_witness :
    (InstrumentMapper.map_symbol fzOne rmNone [profMT4] [instEURUSD]
      "EURUSDX" "mt4_generic").confidence
    < (InstrumentMapper.map_symbol fzOne rmNone [profMT4] [instEURUSD]
      "EURUSD" "mt4_generic").confidence :=
  (C6_confidence_tier_ordering fzOne rmNone [profMT4] [instEURUSD]
    (fun _ _ => ⟨by norm_num [fzOne], by norm_num [fzOne]⟩)
    "EURUSD" "mt4_generic" "EURUSDX" "mt4_generic").2.2.1
    ⟨by decide, by decide⟩

end RatEvalC6

/-- C7: when every resolution tier fails — the broker profile yields no
direct and no pattern match (or there is no profile at all), the
normalized symbol does not resolve in the catalog, and the best fuzzy
candidate (if any) scores below 0.6 — `map_symbol` never fails: it
returns a `MappingResult` with match type `unmapped`, confidence exactly
0.3, the normalized input as the canonical symbol, and a warning (exactly
one when the profile is known; the unknown-broker path adds a second,
earlier warning). -/
theorem C7_no_match_degrades_to_unmapped (fz : FuzzyFn) (rm : ReMatchFn)
    (brokers : List BrokerProfile) (insts : List Instrument) (s bid : String)
    (hnorm : InstrumentCatalog.resolve_symbol insts
      (InstrumentMapper.normalize_symbol_m s) = none)
    (hfuzz : (InstrumentCatalog.search fz insts (InstrumentMapper.normalize_symbol_m s)
        5 0 none true).head?.all (fun h => decide (h.score < 6/10)) = true) :
    (∀ broker, brokers.find? (fun b => b.id == bid) = some broker →
      InstrumentMapper.try_direct_mapping insts broker s bid = none →
      InstrumentMapper.try_pattern_mapping rm insts broker s bid = none →
      InstrumentMapper.map_symbol fz rm brokers insts s bid
        = { canonical_symbol := InstrumentMapper.normalize_symbol_m s
            original_symbol := s
            broker_id := bid
            confidence := 3/10
            match_type := "unmapped"
            warnings := some [InstrumentMapper.unmappedWarning s] })
    ∧ (brokers.find? (fun b => b.id == bid) = none →
      InstrumentMapper.map_symbol fz rm brokers insts s bid
        = { canonical_symbol := InstrumentMapper.normalize_symbol_m s
            original_symbol := s
            broker_id := bid
            confidence := 3/10
            match_type := "unmapped"
            warnings := some ["Unknown broker " ++ bid ++ " - using generic mapping",
                              InstrumentMapper.unmappedWarning s] }) := by
  have hfm : ∀ ws, InstrumentMapper.fuzzy_map fz insts s bid ws
      = { canonical_symbol := InstrumentMapper.normalize_symbol_m s
          original_symbol := s
          broker_id := bid
          confidence := 3/10
          match_type := "unmapped"
          warnings := some (ws ++ [InstrumentMapper.unmappedWarning s]) } := by
    intro ws
    unfold InstrumentMapper.fuzzy_map
    rcases hh : (InstrumentCatalog.search fz insts
        (InstrumentMapper.normalize_symbol_m s) 5 0 none true).head? with _ | best
    · simp only [hh]
    · simp only [hh]
      rw [hh] at hfuzz
      have hlt : best.score < 6/10 := by simpa using hfuzz
      rw [if_neg (not_le.mpr hlt)]
  constructor
  · intro broker hb hd hp
    unfold InstrumentMapper.map_symbol
    simp only [hb, hd, hp, hnorm]
    rw [hfm []]
    simp
  · intro hb
    unfold InstrumentMapper.map_symbol
    simp only [hb]
    unfold InstrumentMapper.fallback_map
    simp only [hnorm]
    rw [hfm _]
    simp

section RatEval6
attribute [local semireducible] Rat.add Rat.mul Rat.inv Rat.sub Rat.ofScientific
set_option maxRecDepth 8000

/-- C7 witness: Scenario E — the unknown symbol `XYZZY123` against an
empty catalog and a profile with no mappings yields exactly the unmapped
result with confidence 0.3 and one warning. -/
theorem C7_witness :
    InstrumentMapper.map_symbol fzZero rmNone [profGeneric] [] "XYZZY123" "generic"
      = { canonical_symbol := "XYZZY123"
          original_symbol := "XYZZY123"
          broker_id := "generic"
          confidence := 3/10
          match_type := "unmapped"
          warnings := some [InstrumentMapper.unmappedWarning "XYZZY123"] }
    ∧ ((InstrumentMapper.map_symbol fzZero rmNone [profGeneric] []
        "XYZZY123" "generic").warnings.getD []).length = 1 := by
  have h := (C7_no_match_degrades_to_unmapped fzZero rmNone [profGeneric] []
    "XYZZY123" "generic" (by decide) (by decide)).1 profGeneric (by decide)
    (by decide) (by decide)
  exact ⟨h.trans (by decide), by decide⟩

end RatEval6

section RatEval7
attribute [local semireducible] Rat.add Rat.mul Rat.inv Rat.sub Rat.ofScientific
set_option maxRecDepth 8000

/-- C8 counterexample: a record meeting all four §3 validity conditions
(non-empty broker symbol, positive entry price, positive lot size, entry
date present) but carrying the default mapping confidence 0.0 still gets
a validation error, so `validation_errors = []` is not equivalent to the
four stated conditions. -/
theorem C8_counterexample_low_confidence_extra_error :
    recC8.broker_symbol ≠ ""
    ∧ 0 < recC8.entry_price
    ∧ 0 < recC8.lot_size
    ∧ recC8.entry_date ≠ none
    ∧ (CSVImporter.validate [recC8]).map (fun t => t.validation_errors)
      = [["Low mapping confidence: 0.00"]] := by
  refine ⟨?_, ?_, ?_, ?_, ?_⟩ <;> decide

end RatEval7

/-- C8 amended: `validate` never removes records (it returns one output
record per input record, with every data field unchanged — both importers
share the same body), and after it a record's `validation_errors` is
empty iff the four §3 conditions hold AND additionally
`mapping_confidence ≥ 0.5`. -/
theorem C8_amended_validate_iff_with_confidence (trades : List TradeRecord) :
    (CSVImporter.validate trades).length = trades.length
    ∧ MT5Parser.validate trades = CSVImporter.validate trades
    ∧ List.Forall₂ (fun s t =>
        t.broker_ticket = s.broker_ticket
        ∧ t.broker_symbol = s.broker_symbol
        ∧ t.entry_price = s.entry_price
        ∧ t.lot_size = s.lot_size
        ∧ t.entry_date = s.entry_date
        ∧ t.mapping_confidence = s.mapping_confidence
        ∧ t.profit_loss = s.profit_loss
        ∧ (t.validation_errors = []
           ↔ (s.broker_symbol ≠ "" ∧ 0 < s.entry_price ∧ 0 < s.lot_size
              ∧ s.entry_date ≠ none ∧ 1/2 ≤ s.mapping_confidence)))
      trades (CSVImporter.validate trades) := by
  refine ⟨by simp [CSVImporter.validate], rfl, ?_⟩
  induction trades with
  | nil => exact List.Forall₂.nil
  | cons a l ih =>
    refine List.Forall₂.cons ?_ ih
    obtain ⟨f1, f2, f3, f4, f5, f6, f7⟩ := validateOne_fields a
    exact ⟨f1, f2, f3, f4, f5, f6, f7, validateOne_errors_iff a⟩

/-- C8 witness: the amended statement at a concrete one-record list. -/
theorem C8_amended_witness :
    (CSVImporter.validate [recC8ok]).length = 1
    ∧ MT5Parser.validate [recC8ok] = CSVImporter.validate [recC8ok]
    ∧ List.Forall₂ (fun s t =>
        t.broker_ticket = s.broker_ticket
        ∧ t.broker_symbol = s.broker_symbol
        ∧ t.entry_price = s.entry_price
        ∧ t.lot_size = s.lot_size
        ∧ t.entry_date = s.entry_date
        ∧ t.mapping_confidence = s.mapping_confidence
        ∧ t.profit_loss = s.profit_loss
        ∧ (t.validation_errors = []
           ↔ (s.broker_symbol ≠ "" ∧ 0 < s.entry_price ∧ 0 < s.lot_size
              ∧ s.entry_date ≠ none ∧ 1/2 ≤ s.mapping_confidence)))
      [recC8ok] (CSVImporter.validate [recC8ok]) :=
  C8_amended_validate_iff_with_confidence [recC8ok]

/-- C9 counterexample: a table with a 5-cell first row and exactly two
data rows satisfies the claim's fallback premise (at least 2 rows, at
least 5 columns) yet is rejected: the code requires strictly more than
two data rows (`len(rows) > 2`), so parsing fails. -/
theorem C9_counterexample_two_row_table_rejected :
    tblC9.rows.length = 2
    ∧ 5 ≤ (tblC9.rows.headD []).length
    ∧ MT5Parser.find_trades_table [tblC9] = none
    ∧ (MT5Parser.parse_tables strpNone fzZero rmNone [] [] "mt4_generic"
        false [tblC9]).success = false
    ∧ (MT5Parser.parse_tables strpNone fzZero rmNone [] [] "mt4_generic"
        false [tblC9]).message = "Could not find trades table in statement" := by
  refine ⟨?_, ?_, ?_, ?_, ?_⟩ <;> decide

/-- C9 amended: the trade-table selector returns a table that either
passes the header heuristic (symbol-like column plus profit- or type-like
column) or has MORE THAN two data rows and at least 5 cells in its first
row; heuristic tables have priority (whenever any table passes the
heuristic, the selected one does); and when no table qualifies the whole
parse fails with "Could not find trades table in statement" and no
trades. -/
theorem C9_amended_table_selection (tables : List HtmlTable) :
    (∀ t, MT5Parser.find_trades_table tables = some t →
      MT5Parser.heuristicTable t = true
      ∨ (2 < t.rows.length ∧ 5 ≤ (t.rows.headD []).length))
    ∧ (∀ t ∈ tables, MT5Parser.heuristicTable t = true →
      ∃ u, MT5Parser.find_trades_table tables = some u
        ∧ MT5Parser.heuristicTable u = true)
    ∧ (∀ (strp : String → String → Option ℤ) (fz : FuzzyFn) (rm : ReMatchFn)
        (brokers : List BrokerProfile) (insts : List Instrument)
        (bid : String) (dry : Bool),
      MT5Parser.find_trades_table tables = none →
      (MT5Parser.parse_tables strp fz rm brokers insts bid dry tables).success = false
      ∧ (MT5Parser.parse_tables strp fz rm brokers insts bid dry tables).message
        = "Could not find trades table in statement"
      ∧ (MT5Parser.parse_tables strp fz rm brokers insts bid dry tables).trades = []) := by
  refine ⟨?_, ?_, ?_⟩
  · intro t h
    unfold MT5Parser.find_trades_table at h
    rcases h1 : tables.find? MT5Parser.heuristicTable with _ | u <;>
      simp only [h1] at h
    · right
      have hb := List.find?_some h
      simp only [Bool.and_eq_true, decide_eq_true_eq] at hb
      exact hb
    · left
      injection h with h'
      exact h' ▸ List.find?_some h1
  · intro t ht hh
    have hs : (tables.find? MT5Parser.heuristicTable).isSome :=
      List.find?_isSome.mpr ⟨t, ht, hh⟩
    rcases h1 : tables.find? MT5Parser.heuristicTable with _ | u
    · rw [h1] at hs
      simp at hs
    · refine ⟨u, ?_, List.find?_some h1⟩
      unfold MT5Parser.find_trades_table
      rw [h1]
  · intro strp fz rm brokers insts bid dry h
    unfold MT5Parser.parse_tables
    rw [h]
    exact ⟨rfl, rfl, rfl⟩

/-- C9 witness: the failure branch of the amended statement at the empty
table list. -/
theorem C9_amended_witness :
    (MT5Parser.parse_tables strpNone fzZero rmNone [] [] "generic"
      false []).success = false
    ∧ (MT5Parser.parse_tables strpNone fzZero rmNone [] [] "generic"
      false []).message = "Could not find trades table in statement"
    ∧ (MT5Parser.parse_tables strpNone fzZero rmNone [] [] "generic"
      false []).trades = [] :=
  (C9_amended_table_selection []).2.2 strpNone fzZero rmNone [] [] "generic" false rfl

/-- C10: no record in the trades of any MT4/MT5 statement parse has a
trade type in the filtered set balance / deposit / withdrawal / credit /
rebate (case-insensitively): `_parse_row` drops such rows before the
mapping and P&L stages, and those stages only drop or preserve records. -/
theorem C10_non_trade_rows_filtered (strp : String → String → Option ℤ)
    (fz : FuzzyFn) (rm : ReMatchFn) (brokers : List BrokerProfile)
    (insts : List Instrument) (bid : String) (dry : Bool)
    (tables : List HtmlTable) (t : TradeRecord)
    (ht : t ∈ (MT5Parser.parse_tables strp fz rm brokers insts bid
      dry tables).trades) :
    ¬ pyLower t.trade_type ∈ nonTradeTypes := by
  unfold MT5Parser.parse_tables at ht
  rcases hf : MT5Parser.find_trades_table tables with _ | tbl <;>
    simp only [hf] at ht
  · simp at ht
  · rcases hms : BaseImporter.map_symbols_step fz rm brokers insts bid
        (tbl.rows.enum.filterMap
          (fun p => MT5Parser.parse_row strp (MT5Parser.build_column_map tbl.headers)
            p.2 (p.1 + 1))) with e | ts1 <;>
      simp only [hms] at ht
    · simp at ht
    · rcases hcp : BaseImporter.calculate_pnl_step insts ts1 with e | ts2 <;>
        simp only [hcp] at ht
      · simp at ht
      · have ht' : t ∈ ts2 := ht
        rw [calculate_pnl_step_ok insts ts1 ts2 hcp] at ht'
        obtain ⟨t0, ht0, htt⟩ :=
          map_symbols_step_trade_type fz rm brokers insts bid _ ts1 hms t ht'
        rcases List.mem_filterMap.mp ht0 with ⟨p, hp, hpr⟩
        rw [htt]
        exact mt5_parse_row_type strp (MT5Parser.build_column_map tbl.headers)
          p.2 (p.1 + 1) t0 hpr

section RatEval8
attribute [local semireducible] Rat.add Rat.mul Rat.inv Rat.sub Rat.ofScientific
set_option maxRecDepth 8000

/-- C10 witness: in the parse of a concrete two-row statement (one buy
row, one balance row) the buy row's record is in the output, and the
theorem applies to it. -/
theorem C10_witness :
    tradeC10 ∈ (MT5Parser.parse_tables strpNone fzZero rmNone [] []
      "mt4_generic" false [tblC10]).trades
    ∧ ¬ pyLower tradeC10.trade_type ∈ nonTradeTypes :=
  ⟨by decide,
   C10_non_trade_rows_filtered strpNone fzZero rmNone [] [] "mt4_generic"
     false [tblC10] tradeC10 (by decide)⟩

end RatEval8
